import Mathlib

/-!
Verification development for the particle-simulation repository.

The physics core (`src/physics.js`, `src/simulation.js`, `src/particle.js`,
`src/config.js`, and the self-contained variant in `src/main.js`) is embedded
shallowly.  JavaScript numbers are modelled as exact rationals; the two
irrational primitives `Math.sqrt` and `Math.pow (· , -1.5)` are abstracted
into a `JsMath` parameter so that every definition stays computable, with a
concrete instance (`mathSpec`) that agrees with the real functions on the
perfect squares used by concrete evaluations.

`physics.js` computes with a module-level pool of reusable `THREE.Vector3`
scratch objects (`temp.vec1`, `temp.vec2`, …) and returns references into that
pool; several functions also write particle fields in place.  The embedding
therefore threads an explicit `Store` (scratch registers plus the particle
array) and represents every `THREE.Vector3` value that the code passes around
as a reference (`Ref`) into that store, read and written exactly where the
JavaScript reads and writes it.  Exceptions (a compiled field function can
throw at evaluation time) are modelled by an `Except` layer whose error value
carries the store at throw time, because a JavaScript `catch` observes all
mutations performed before the throw.

Rendering, DOM, GUI and trail bookkeeping are outside the embedding: they read
physics state but the physics state never depends on them.
-/

/-- A 3-component vector of rationals, modelling a `THREE.Vector3` value. -/
structure Vec3 where
  x : ℚ
  y : ℚ
  z : ℚ
deriving DecidableEq, Repr

namespace Vec3

def add (a b : Vec3) : Vec3 := ⟨a.x + b.x, a.y + b.y, a.z + b.z⟩

def sub (a b : Vec3) : Vec3 := ⟨a.x - b.x, a.y - b.y, a.z - b.z⟩

def neg (a : Vec3) : Vec3 := ⟨-a.x, -a.y, -a.z⟩

/-- Scalar multiplication, `v.multiplyScalar s` / `multiply(s, v)`. -/
def smul (s : ℚ) (a : Vec3) : Vec3 := ⟨s * a.x, s * a.y, s * a.z⟩

def dot (a b : Vec3) : ℚ := a.x * b.x + a.y * b.y + a.z * b.z

/-- Cross product as in `THREE.Vector3.crossVectors` (components are read before the target is
written, so the result is the mathematical cross product even under
aliasing). -/
def cross (a b : Vec3) : Vec3 :=
  ⟨a.y * b.z - a.z * b.y, a.z * b.x - a.x * b.z, a.x * b.y - a.y * b.x⟩

def lengthSq (a : Vec3) : ℚ := a.x * a.x + a.y * a.y + a.z * a.z

def zero : Vec3 := ⟨0, 0, 0⟩

end Vec3

/-- One particle's mutable state (`class Particle` in `src/particle.js` /
`src/main.js`): position `r`, velocity `v`, charge `q`, Lorentz factor
`gamma`.  Colour and trail data are rendering state and are not modelled. -/
structure PState where
  r : Vec3
  v : Vec3
  q : ℚ
  gamma : ℚ
deriving DecidableEq, Repr

/-- The names of the reusable scratch vectors in the module-level `temp` pool
of `src/physics.js` (and identically `src/main.js`). -/
inductive Reg where
  | vec1 | vec2 | vec3 | force | r | v
  | k1r | k1v | k2r | k2v | k3r | k3v | k4r | k4v
deriving DecidableEq, Repr

/-- The scratch pool itself. -/
structure Temp where
  vec1 : Vec3
  vec2 : Vec3
  vec3 : Vec3
  force : Vec3
  r : Vec3
  v : Vec3
  k1r : Vec3
  k1v : Vec3
  k2r : Vec3
  k2v : Vec3
  k3r : Vec3
  k3v : Vec3
  k4r : Vec3
  k4v : Vec3
deriving DecidableEq, Repr

namespace Temp

def get (t : Temp) : Reg → Vec3
  | .vec1 => t.vec1 | .vec2 => t.vec2 | .vec3 => t.vec3 | .force => t.force
  | .r => t.r | .v => t.v
  | .k1r => t.k1r | .k1v => t.k1v | .k2r => t.k2r | .k2v => t.k2v
  | .k3r => t.k3r | .k3v => t.k3v | .k4r => t.k4r | .k4v => t.k4v

def set (t : Temp) (g : Reg) (w : Vec3) : Temp :=
  match g with
  | .vec1 => { t with vec1 := w } | .vec2 => { t with vec2 := w }
  | .vec3 => { t with vec3 := w } | .force => { t with force := w }
  | .r => { t with r := w } | .v => { t with v := w }
  | .k1r => { t with k1r := w } | .k1v => { t with k1v := w }
  | .k2r => { t with k2r := w } | .k2v => { t with k2v := w }
  | .k3r => { t with k3r := w } | .k3v => { t with k3v := w }
  | .k4r => { t with k4r := w } | .k4v => { t with k4v := w }

/-- A scratch pool of zero vectors (the state right after module load). -/
def init : Temp :=
  ⟨.zero, .zero, .zero, .zero, .zero, .zero, .zero,
   .zero, .zero, .zero, .zero, .zero, .zero, .zero⟩

end Temp

/-- The mutable heap the physics core touches: the scratch pool and the
particle array. -/
structure Store where
  temp : Temp
  parts : List PState
deriving DecidableEq, Repr

/-- A `THREE.Vector3` object reference as passed around by the code: either
one of the scratch registers or a particle's `r`/`v` field. -/
inductive Ref where
  | reg (g : Reg)
  | pr (i : ℕ)
  | pv (i : ℕ)
deriving DecidableEq, Repr

def defaultP : PState := ⟨.zero, .zero, 0, 1⟩

namespace Store

def read (σ : Store) : Ref → Vec3
  | .reg g => σ.temp.get g
  | .pr i => (σ.parts.getD i defaultP).r
  | .pv i => (σ.parts.getD i defaultP).v

def writeTemp (σ : Store) (g : Reg) (w : Vec3) : Store :=
  { σ with temp := σ.temp.set g w }

def writePr (σ : Store) (i : ℕ) (w : Vec3) : Store :=
  { σ with parts := σ.parts.set i { σ.parts.getD i defaultP with r := w } }

def writePv (σ : Store) (i : ℕ) (w : Vec3) : Store :=
  { σ with parts := σ.parts.set i { σ.parts.getD i defaultP with v := w } }

def writeGamma (σ : Store) (i : ℕ) (g : ℚ) : Store :=
  { σ with parts := σ.parts.set i { σ.parts.getD i defaultP with gamma := g } }

/-- The per-particle `(position, velocity, charge)` view, i.e. everything of a
particle except the derived `gamma` field. -/
def rvq (σ : Store) : List (Vec3 × Vec3 × ℚ) :=
  σ.parts.map fun p => (p.r, p.v, p.q)

end Store

/-- A thrown JavaScript exception (only its message is relevant). -/
structure JsError where
  message : String
deriving DecidableEq, Repr

/-- The effect type of the physics core: state on `Store`, plus exceptions.
The error value carries the store at throw time, because JavaScript `catch`
blocks observe every mutation performed before the throw. -/
def JsM (α : Type) : Type := Store → Except (JsError × Store) (α × Store)

namespace JsM

def pureImpl (a : α) : JsM α := fun σ => .ok (a, σ)

def bindImpl (m : JsM α) (f : α → JsM β) : JsM β := fun σ =>
  match m σ with
  | .error es => .error es
  | .ok (a, σ') => f a σ'

instance : Monad JsM where
  pure := pureImpl
  bind := bindImpl

def throwJs (msg : String) : JsM α := fun σ => .error (⟨msg⟩, σ)

/-- Lift the result of calling a compiled field function (which may throw). -/
def liftE (x : Except JsError ℚ) : JsM ℚ := fun σ =>
  match x with
  | .ok w => .ok (w, σ)
  | .error e => .error (e, σ)

def readRef (rf : Ref) : JsM Vec3 := fun σ => .ok (σ.read rf, σ)

def writeTemp (g : Reg) (w : Vec3) : JsM Unit := fun σ => .ok ((), σ.writeTemp g w)

def writePr (i : ℕ) (w : Vec3) : JsM Unit := fun σ => .ok ((), σ.writePr i w)

def writePv (i : ℕ) (w : Vec3) : JsM Unit := fun σ => .ok ((), σ.writePv i w)

def setGamma (i : ℕ) (g : ℚ) : JsM Unit := fun σ => .ok ((), σ.writeGamma i g)

def getParticle (i : ℕ) : JsM PState := fun σ => .ok (σ.parts.getD i defaultP, σ)

def getCount : JsM ℕ := fun σ => .ok (σ.parts.length, σ)

/-- Models `dst.copy(src)` — writes `dst` with `src`'s current components and returns
the `dst` reference. -/
def vcopy (dst : Reg) (src : Ref) : JsM Ref := do
  let w ← readRef src
  writeTemp dst w
  pure (.reg dst)

/-- Models `dst.multiplyScalar(s)` (in place). -/
def vmulS (dst : Reg) (s : ℚ) : JsM Unit := do
  let w ← readRef (.reg dst)
  writeTemp dst (Vec3.smul s w)

/-- Models `dst.add(src)` (in place). -/
def vaddRef (dst : Reg) (src : Ref) : JsM Unit := do
  let w ← readRef (.reg dst)
  let u ← readRef src
  writeTemp dst (w.add u)

/-- Models `dst.sub(src)` (in place). -/
def vsubRef (dst : Reg) (src : Ref) : JsM Unit := do
  let w ← readRef (.reg dst)
  let u ← readRef src
  writeTemp dst (w.sub u)

/-- Models `dst.addScaledVector(src, s)` (in place). -/
def vaddScaled (dst : Reg) (src : Ref) (s : ℚ) : JsM Unit := do
  let w ← readRef (.reg dst)
  let u ← readRef src
  writeTemp dst (w.add (Vec3.smul s u))

/-- Models `dst.crossVectors(a, b)`: both operands are read before `dst` is written
(matching the `THREE.js` implementation, which copies the components into
locals first). -/
def vcrossInto (dst : Reg) (a b : Ref) : JsM Unit := do
  let va ← readRef a
  let vb ← readRef b
  writeTemp dst (va.cross vb)

/-- The store after running `m`, on either the normal or the exceptional
path. -/
def resultStore (m : JsM α) (σ : Store) : Store :=
  match m σ with
  | .ok (_, σ') => σ'
  | .error (_, σ') => σ'

end JsM

/-! ## Configuration (`src/config.js`) -/

/-- The constants object `CONSTANTS` of `src/config.js` / `src/main.js`. -/
def SOFTENING : ℚ := 1 / 1000000

def MAX_DT : ℚ := 1 / 30

def C_SQUARED_EPSILON : ℚ := 1 / 1000000000

/-- The physics part of the global `PARAMS` object (read-only to the core). -/
structure Phys where
  useRelativity : Bool
  c : ℚ
  restMass : ℚ
  friction : ℚ
  k_e : ℚ
  animationSpeed : ℚ
deriving DecidableEq, Repr

/-- The two JavaScript `Math` primitives whose exact values leave ℚ:
`sqrt x` models `Math.sqrt(x)` and `powNeg15 x` models `Math.pow(x, -1.5)`.
They are parameters of the embedding; concrete evaluations instantiate them
with `mathSpec`, which is exact on the perfect squares they are applied to. -/
structure JsMath where
  sqrt : ℚ → ℚ
  powNeg15 : ℚ → ℚ

/-- A linear-search natural square root (kernel-reducible); exact when `n` is
a perfect square. -/
def natSqrtLin (n : ℕ) : ℕ :=
  (List.range (n + 1)).foldl (fun acc k => if k * k ≤ n then k else acc) 0

/-- Rational square root, exact when numerator and denominator are perfect
squares — every concrete input below is of that form. -/
def qsqrt (x : ℚ) : ℚ := (natSqrtLin x.num.toNat : ℚ) / (natSqrtLin x.den : ℚ)

/-- The concrete `JsMath` used by concrete evaluations: `x ^ (-1.5) =
(sqrt x)⁻¹ ^ 3` for `x > 0`. -/
def mathSpec : JsMath := ⟨qsqrt, fun x => ((qsqrt x) ^ 3)⁻¹⟩

/-- One compiled field-component function `(x, y, z, t) ↦ value`; evaluation
can throw (the strings are user code compiled with `new Function`). -/
def FieldFn : Type := ℚ → ℚ → ℚ → ℚ → Except JsError ℚ

/-- The module-level `fieldFunctions` object holding the six compiled
components. -/
structure FieldFns where
  Ex : FieldFn
  Ey : FieldFn
  Ez : FieldFn
  Bx : FieldFn
  By : FieldFn
  Bz : FieldFn

/-- A total (never-throwing) field component. -/
def FieldFn.pure (f : ℚ → ℚ → ℚ → ℚ → ℚ) : FieldFn := fun x y z t => .ok (f x y z t)

/-- The six zero components `fieldFunctions` starts with in `config.js`. -/
def zeroFields : FieldFns :=
  ⟨.pure fun _ _ _ _ => 0, .pure fun _ _ _ _ => 0, .pure fun _ _ _ _ => 0,
   .pure fun _ _ _ _ => 0, .pure fun _ _ _ _ => 0, .pure fun _ _ _ _ => 0⟩

/-! ## Physics engine (`src/physics.js`, transcribed statement by statement)

Each function below is the like-named method of the `Physics` object in
`src/physics.js`.  `Ref` arguments are the `THREE.Vector3` references the
JavaScript passes; return values that are vector references in the source are
`Ref`s here. -/

open JsM

namespace Physics

variable (P : Phys) (M : JsMath) (F : FieldFns)

/-- Models `Physics.electricField(r, t)`: evaluates the three components at `r`'s
current value, then writes `temp.vec1` and returns it.  (The component calls
happen before the write, so a throw leaves `temp.vec1` untouched — this
matches JavaScript argument-evaluation order for `temp.vec1.set(...)`.) -/
def electricField (rr : Ref) (t : ℚ) : JsM Ref := do
  let p ← readRef rr
  let ex ← liftE (F.Ex p.x p.y p.z t)
  let ey ← liftE (F.Ey p.x p.y p.z t)
  let ez ← liftE (F.Ez p.x p.y p.z t)
  writeTemp .vec1 ⟨ex, ey, ez⟩
  pure (.reg .vec1)

/-- Models `Physics.magneticField(r, t)`: same shape, into `temp.vec2`. -/
def magneticField (rr : Ref) (t : ℚ) : JsM Ref := do
  let p ← readRef rr
  let bx ← liftE (F.Bx p.x p.y p.z t)
  let by_ ← liftE (F.By p.x p.y p.z t)
  let bz ← liftE (F.Bz p.x p.y p.z t)
  writeTemp .vec2 ⟨bx, by_, bz⟩
  pure (.reg .vec2)

/-- The loop body of `computeCoulombForce` over the remaining indices `js`. -/
def coulombLoop (i : ℕ) : List ℕ → JsM Unit
  | [] => pure ()
  | j :: rest => do
    if i = j then
      coulombLoop i rest
    else
      let pi_ ← getParticle i
      let pj ← getParticle j
      writeTemp .r (pi_.r.sub pj.r)
      let rji ← readRef (.reg .r)
      let dist2 := max rji.lengthSq (SOFTENING * SOFTENING)
      let invDist3 := M.powNeg15 dist2
      let scalar := P.k_e * pi_.q * pj.q * invDist3
      let fi ← readRef (.reg .vec3)
      writeTemp .vec3 (fi.add (Vec3.smul scalar rji))
      coulombLoop i rest

/-- Models `Physics.computeCoulombForce(particleIndex, currentParticles)`: accumulates
into `temp.vec3` (using `temp.r` for each separation vector) and returns the
`temp.vec3` reference. -/
def computeCoulombForce (i : ℕ) : JsM Ref := do
  writeTemp .vec3 .zero
  let n ← getCount
  coulombLoop P M i (List.range n)
  pure (.reg .vec3)

/-- The radicand `1 - vSq / cSq` of the Lorentz-factor computation, with the
velocity-squared term clamped as on `src/physics.js` line 52:
`vSq = Math.min(v.lengthSq(), cSq - C_SQUARED_EPSILON)`. -/
def gammaRadicand (vv : Vec3) : ℚ :=
  1 - min vv.lengthSq (P.c * P.c - C_SQUARED_EPSILON) / (P.c * P.c)

/-- Models `Physics.computeAcceleration(particleIndex, r, v, t, currentParticles)`,
transcribed line by line including every scratch-register write.  Returns the
`temp.force` reference holding the resulting acceleration. -/
def computeAcceleration (i : ℕ) (rr vr : Ref) (t : ℚ) : JsM Ref := do
  let m := P.restMass
  if P.useRelativity then
    let cSq := P.c * P.c
    let vv ← readRef vr
    let gamma := 1 / M.sqrt (gammaRadicand P vv)
    setGamma i gamma
    let eRef ← electricField F rr t
    let bRef ← magneticField F rr t
    let vNow ← readRef vr
    let eNow ← readRef eRef
    let v_dot_E := vNow.dot eNow
    let _ ← vcopy .vec1 vr
    vmulS .vec1 (v_dot_E / cSq)
    vcrossInto .vec2 vr bRef
    let _ ← vcopy .force eRef
    vaddRef .force (.reg .vec2)
    vsubRef .force (.reg .vec1)
    let p ← getParticle i
    vmulS .force (p.q / (p.gamma * m))
    pure (.reg .force)
  else
    setGamma i 1
    let _ ← electricField F rr t
    let _ ← magneticField F rr t
    vcrossInto .v vr (.reg .vec2)
    let p ← getParticle i
    let _ ← vcopy .force (.reg .vec1)
    vaddRef .force (.reg .v)
    vmulS .force p.q
    let _ ← vcopy .vec1 vr
    vmulS .vec1 (-P.friction)
    let cRef ← computeCoulombForce P M i
    vaddRef .force (.reg .vec1)
    vaddRef .force cRef
    vmulS .force (1 / m)
    pure (.reg .force)

/-- The pair of vector references `{ dr, dv }` returned by `rk4Step`. -/
structure DeltaRefs where
  dr : Ref
  dv : Ref
deriving DecidableEq, Repr

/-- The k1 block of `Physics.rk4Step` (`src/physics.js` lines 90–93). -/
def rk4K1 (i : ℕ) (dt t : ℚ) : JsM Unit := do
  let a1 ← computeAcceleration P M F i (.pr i) (.pv i) t
  let _ ← vcopy .k1v a1
  vmulS .k1v dt
  let _ ← vcopy .k1r (.pv i)
  vmulS .k1r dt

/-- The k2 block (lines 95–100): the stage state `v2`/`r2` is built in
`temp.vec1`/`temp.vec2`, which the nested `computeAcceleration` call then
overwrites before `temp.k2r` is read from `v2`. -/
def rk4K2 (i : ℕ) (dt t : ℚ) : JsM Unit := do
  let _ ← vcopy .vec1 (.pv i)
  vaddScaled .vec1 (.reg .k1v) (1/2)
  let _ ← vcopy .vec2 (.pr i)
  vaddScaled .vec2 (.reg .k1r) (1/2)
  let a2 ← computeAcceleration P M F i (.reg .vec2) (.reg .vec1) (t + dt / 2)
  let _ ← vcopy .k2v a2
  vmulS .k2v dt
  let _ ← vcopy .k2r (.reg .vec1)
  vmulS .k2r dt

/-- The k3 block (lines 102–107). -/
def rk4K3 (i : ℕ) (dt t : ℚ) : JsM Unit := do
  let _ ← vcopy .vec1 (.pv i)
  vaddScaled .vec1 (.reg .k2v) (1/2)
  let _ ← vcopy .vec2 (.pr i)
  vaddScaled .vec2 (.reg .k2r) (1/2)
  let a3 ← computeAcceleration P M F i (.reg .vec2) (.reg .vec1) (t + dt / 2)
  let _ ← vcopy .k3v a3
  vmulS .k3v dt
  let _ ← vcopy .k3r (.reg .vec1)
  vmulS .k3r dt

/-- The k4 block (lines 109–114). -/
def rk4K4 (i : ℕ) (dt t : ℚ) : JsM Unit := do
  let _ ← vcopy .vec1 (.pv i)
  vaddRef .vec1 (.reg .k3v)
  let _ ← vcopy .vec2 (.pr i)
  vaddRef .vec2 (.reg .k3r)
  let a4 ← computeAcceleration P M F i (.reg .vec2) (.reg .vec1) (t + dt)
  let _ ← vcopy .k4v a4
  vmulS .k4v dt
  let _ ← vcopy .k4r (.reg .vec1)
  vmulS .k4r dt

/-- The Combine block (lines 116–118), writing `dr` into `temp.r` and
`dv` into `temp.v`. -/
def rk4Combine : JsM Unit := do
  let _ ← vcopy .r (.reg .k1r)
  vaddScaled .r (.reg .k2r) 2
  vaddScaled .r (.reg .k3r) 2
  vaddRef .r (.reg .k4r)
  vmulS .r (1/6)
  let _ ← vcopy .v (.reg .k1v)
  vaddScaled .v (.reg .k2v) 2
  vaddScaled .v (.reg .k3v) 2
  vaddRef .v (.reg .k4v)
  vmulS .v (1/6)

/-- Models `Physics.rk4Step(i, p, dt, t, currentParticles)` of `src/physics.js`,
transcribed statement by statement (the five blocks above, in source order).
The returned `{ dr, dv }` are the references `temp.r` and `temp.v` — exactly
as in the source, which returns the scratch objects themselves. -/
def rk4Step (i : ℕ) (dt t : ℚ) : JsM DeltaRefs := do
  rk4K1 P M F i dt t
  rk4K2 P M F i dt t
  rk4K3 P M F i dt t
  rk4K4 P M F i dt t
  rk4Combine
  pure ⟨.reg .r, .reg .v⟩

end Physics

/-! ## The `main.js` variant of the physics engine

`src/main.js` contains a self-contained variant whose `electricField`,
`magneticField` and `computeCoulombForce` are identical to `src/physics.js`
(they are reused), but whose `computeAcceleration` (lines 373–401) uses
`temp.vec3` for the full force and a local `gamma`, and whose `rk4Step`
(lines 406–431) begins with `if (params.restMass === 0) throw ...` and uses
the other standard RK4 formulation (stage slopes unscaled, one `dt/6` factor
at the end, accumulated in place in `temp.k1r` / `temp.k1v`). -/

namespace MainPhysics

open Physics

variable (P : Phys) (M : JsMath) (F : FieldFns)

/-- Models `Physics.totalForce` of `src/main.js` (lines 359–368): classical Lorentz +
drag + Coulomb, returned in `temp.force`. -/
def totalForce (i : ℕ) (rr vr : Ref) (t : ℚ) : JsM Ref := do
  let p ← getParticle i
  let _ ← electricField F rr t
  let _ ← magneticField F rr t
  vcrossInto .v vr (.reg .vec2)
  let _ ← vcopy .force (.reg .vec1)
  vaddRef .force (.reg .v)
  vmulS .force p.q
  let _ ← vcopy .vec1 vr
  vmulS .vec1 (-P.friction)
  let cRef ← computeCoulombForce P M i
  vaddRef .force (.reg .vec1)
  vaddRef .force cRef
  pure (.reg .force)

/-- Models `Physics.computeAcceleration` of `src/main.js` (lines 373–401). -/
def computeAcceleration (i : ℕ) (rr vr : Ref) (t : ℚ) : JsM Ref := do
  if P.useRelativity then
    let cSq := P.c * P.c
    let vv ← readRef vr
    let gamma := 1 / M.sqrt (gammaRadicand P vv)
    setGamma i gamma
    let eRef ← electricField F rr t
    let bRef ← magneticField F rr t
    let p ← getParticle i
    let vNow ← readRef vr
    let eNow ← readRef eRef
    let v_dot_E := vNow.dot eNow
    let _ ← vcopy .vec1 vr
    vmulS .vec1 (v_dot_E / cSq)
    vcrossInto .vec2 vr bRef
    let _ ← vcopy .vec3 eRef
    vaddRef .vec3 (.reg .vec2)
    vsubRef .vec3 (.reg .vec1)
    vmulS .vec3 (p.q / (gamma * P.restMass))
    pure (.reg .vec3)
  else
    setGamma i 1
    let fRef ← totalForce P M F i rr vr t
    vmulS .force (1 / P.restMass)
    pure fRef

/-- Models `Physics.rk4Step` of `src/main.js` (lines 406–431), including the
`if (params.restMass === 0) throw new Error('Rest mass cannot be zero!')`
guard on line 407. -/
def rk4Step (i : ℕ) (dt t : ℚ) : JsM DeltaRefs := do
  if P.restMass = 0 then
    throwJs "Rest mass cannot be zero!"
  else
    -- k1
    let a1 ← computeAcceleration P M F i (.pr i) (.pv i) t
    let _ ← vcopy .k1v a1
    let _ ← vcopy .k1r (.pv i)
    -- k2
    let _ ← vcopy .vec1 (.pv i)
    vaddScaled .vec1 (.reg .k1v) (dt / 2)
    let _ ← vcopy .vec2 (.pr i)
    vaddScaled .vec2 (.reg .k1r) (dt / 2)
    let a2 ← computeAcceleration P M F i (.reg .vec2) (.reg .vec1) t
    let _ ← vcopy .k2v a2
    let _ ← vcopy .k2r (.pv i)
    vaddScaled .k2r (.reg .k1v) (dt / 2)
    -- k3
    let _ ← vcopy .vec1 (.pv i)
    vaddScaled .vec1 (.reg .k2v) (dt / 2)
    let _ ← vcopy .vec2 (.pr i)
    vaddScaled .vec2 (.reg .k2r) (dt / 2)
    let a3 ← computeAcceleration P M F i (.reg .vec2) (.reg .vec1) t
    let _ ← vcopy .k3v a3
    let _ ← vcopy .k3r (.pv i)
    vaddScaled .k3r (.reg .k2v) (dt / 2)
    -- k4
    let _ ← vcopy .vec1 (.pv i)
    vaddScaled .vec1 (.reg .k3v) dt
    let _ ← vcopy .vec2 (.pr i)
    vaddScaled .vec2 (.reg .k3r) dt
    let a4 ← computeAcceleration P M F i (.reg .vec2) (.reg .vec1) t
    let _ ← vcopy .k4v a4
    let _ ← vcopy .k4r (.pv i)
    vaddScaled .k4r (.reg .k3v) dt
    -- Combine (in place, on temp.k1r / temp.k1v)
    vaddScaled .k1r (.reg .k2r) 2
    vaddScaled .k1r (.reg .k3r) 2
    vaddRef .k1r (.reg .k4r)
    vmulS .k1r (dt / 6)
    vaddScaled .k1v (.reg .k2v) 2
    vaddScaled .k1v (.reg .k3v) 2
    vaddRef .k1v (.reg .k4v)
    vmulS .k1v (dt / 6)
    pure ⟨.reg .k1r, .reg .k1v⟩

end MainPhysics

/-! ## Frame orchestration (`src/simulation.js` and `src/particle.js`)

`Simulation.update` computes `stagedUpdates = particles.map((p, i) =>
Physics.rk4Step(i, p, dt, totalTimeSec, particles))` and then
`particleSystem.update(stagedUpdates)`, which does `p.r.add(dr);
p.v.add(dv)` for every particle in index order.  To state the claim about
iteration order, the delta-computation pass is parametrised by the order in
which the per-particle `rk4Step` calls are made; each result is tagged with
its particle index, and the commit pass always runs in index order, using the
delta computed for that index — exactly the code when the order is
`0, 1, …, n-1`. -/

namespace Simulation

open Physics JsM

variable (P : Phys) (M : JsMath) (F : FieldFns)

/-- The staged-update pass: run `rk4Step` for each index in `order`,
remembering which `{ dr, dv }` belongs to which particle. -/
def computeDeltas (dt t : ℚ) : List ℕ → JsM (List (ℕ × DeltaRefs))
  | [] => pure []
  | i :: rest => do
    let refs ← rk4Step P M F i dt t
    let more ← computeDeltas dt t rest
    pure ((i, refs) :: more)

/-- Lookup of `stagedUpdates[i]`. -/
def lookupRefs (upds : List (ℕ × DeltaRefs)) (i : ℕ) : DeltaRefs :=
  (upds.lookup i).getD ⟨.reg .r, .reg .v⟩

/-- One iteration of `ParticleSystem.update`'s `forEach`
(`src/particle.js` lines 60–63): `p.r.add(dr); p.v.add(dv)`.  The values of
`dr` and `dv` are read from the store at commit time, because the source
stores the scratch objects themselves in `stagedUpdates`. -/
def commitOne (u : DeltaRefs) (i : ℕ) : JsM Unit := do
  let dr ← readRef u.dr
  let rOld ← readRef (.pr i)
  writePr i (rOld.add dr)
  let dv ← readRef u.dv
  let vOld ← readRef (.pv i)
  writePv i (vOld.add dv)

/-- Models `ParticleSystem.update(stagedUpdates)`: commit in index order. -/
def commitAll (upds : List (ℕ × DeltaRefs)) : List ℕ → JsM Unit
  | [] => pure ()
  | i :: rest => do
    commitOne (lookupRefs upds i) i
    commitAll upds rest

/-- The body of the `try` block of `Simulation.update` (`src/simulation.js`
lines 55–60), with the `rk4Step` calls made in the given order. -/
def stepFrameOrder (dt t : ℚ) (order : List ℕ) : JsM Unit := do
  let upds ← computeDeltas P M F dt t order
  let n ← getCount
  commitAll upds (List.range n)

/-- The body of the `try` block as the code runs it: index order. -/
def stepFrame (dt t : ℚ) : JsM Unit := do
  let n ← getCount
  stepFrameOrder P M F dt t (List.range n)

/-- The `Simulation` object state relevant to the core: pause flag, the
simulation clock, the last wall-clock reading, and the physics heap. -/
structure SimState where
  isPaused : Bool
  totalTimeSec : ℚ
  lastTimeSec : ℚ
  store : Store
deriving DecidableEq, Repr

/-- Models `Simulation.update()` of `src/simulation.js` (lines 45–68), with the
current wall-clock reading `performance.now() / 1000` passed in as `nowSec`.
UI writes (`updateUI`, `alert`, `console.error`) have no effect on physics
state and are omitted.  On an exception inside the `try`, the catch block
sets `isPaused = true` and keeps whatever mutations had already happened. -/
def update (nowSec : ℚ) (s : SimState) : SimState :=
  let dt0 := nowSec - s.lastTimeSec
  let s1 := { s with lastTimeSec := nowSec }
  if s1.isPaused ∨ dt0 ≤ 0 then
    s1
  else
    let dt := min (dt0 * P.animationSpeed) MAX_DT
    let s2 := { s1 with totalTimeSec := s1.totalTimeSec + dt }
    match stepFrame P M F dt s2.totalTimeSec s2.store with
    | .ok (_, σ') => { s2 with store := σ' }
    | .error (_, σ') => { s2 with isPaused := true, store := σ' }

end Simulation

/-! ## Field-function compilation (`src/config.js` lines 44–62)

`compileFieldFunctions` assigns the six freshly compiled functions one by one
into the live `fieldFunctions` object inside a `try`; the first `new
Function` that throws aborts the sequence, leaving the assignments made so
far in place.  After all six are assigned, `fieldFunctions.Ex(0,0,0,0)` is
evaluated once to surface evaluation-time errors; a throw there is also
caught.  The JS `new Function(...)` compilation itself is modelled by its
outcome: for each component either a compiled function or the thrown error. -/

/-- The six compilation outcomes for the six expression strings. -/
structure CompileInput where
  Ex : Except JsError FieldFn
  Ey : Except JsError FieldFn
  Ez : Except JsError FieldFn
  Bx : Except JsError FieldFn
  By : Except JsError FieldFn
  Bz : Except JsError FieldFn

/-- Models `compileFieldFunctions()`: returns the new `fieldFunctions` state and
`none` on success (`return true` in the source) or `some err` on failure
(`return { error: true, message }`). -/
def compileFieldFunctions (inp : CompileInput) (cur : FieldFns) : FieldFns × Option JsError :=
  match inp.Ex with
  | .error e => (cur, some e)
  | .ok fEx =>
  let cur := { cur with Ex := fEx }
  match inp.Ey with
  | .error e => (cur, some e)
  | .ok fEy =>
  let cur := { cur with Ey := fEy }
  match inp.Ez with
  | .error e => (cur, some e)
  | .ok fEz =>
  let cur := { cur with Ez := fEz }
  match inp.Bx with
  | .error e => (cur, some e)
  | .ok fBx =>
  let cur := { cur with Bx := fBx }
  match inp.By with
  | .error e => (cur, some e)
  | .ok fBy =>
  let cur := { cur with By := fBy }
  match inp.Bz with
  | .error e => (cur, some e)
  | .ok fBz =>
  let cur := { cur with Bz := fBz }
  match cur.Ex 0 0 0 0 with
  | .error e => (cur, some e)
  | .ok _ => (cur, none)

/-! ## Value extraction helpers -/

/-- The acceleration value `computeAcceleration` returns: the returned
reference, dereferenced in the store at return time (`none` if a field
function threw). -/
def Physics.accelValue (P : Phys) (M : JsMath) (F : FieldFns) (i : ℕ) (rr vr : Ref)
    (t : ℚ) (σ : Store) : Option Vec3 :=
  match Physics.computeAcceleration P M F i rr vr t σ with
  | .ok (ref, σ') => some (σ'.read ref)
  | .error _ => none

/-- The `{ dr, dv }` values produced by one `rk4Step` call, dereferenced at
return time. -/
def Physics.rk4Delta (P : Phys) (M : JsMath) (F : FieldFns) (i : ℕ) (dt t : ℚ)
    (σ : Store) : Option (Vec3 × Vec3) :=
  match Physics.rk4Step P M F i dt t σ with
  | .ok (refs, σ') => some (σ'.read refs.dr, σ'.read refs.dv)
  | .error _ => none

/-- The Coulomb-force value `computeCoulombForce` returns for particle `i`
(the function cannot throw). -/
def Physics.coulombValue (P : Phys) (M : JsMath) (i : ℕ) (σ : Store) : Vec3 :=
  match Physics.computeCoulombForce P M i σ with
  | .ok (ref, σ') => σ'.read ref
  | .error _ => Vec3.zero

/-- The store after one staged frame with the `rk4Step` calls made in the
given order (`none` if the frame threw). -/
def Simulation.frameResult (P : Phys) (M : JsMath) (F : FieldFns) (dt t : ℚ)
    (order : List ℕ) (σ : Store) : Option Store :=
  match Simulation.stepFrameOrder P M F dt t order σ with
  | .ok (_, σ') => some σ'
  | .error _ => none

/-- Modelled from the spec: `a = (q/(γ·m))·(E + v×B − v·(v·E)/c²)` with
`γ = 1/√(1 − v²/c²)` computed from the clamped `v²` (spec §4.2, relativistic
branch), as a pure function of the field values at the evaluation point. -/
def specRelativisticAccel (P : Phys) (M : JsMath) (q : ℚ) (vv E B : Vec3) : Vec3 :=
  let cSq := P.c * P.c
  let gamma := 1 / M.sqrt (Physics.gammaRadicand P vv)
  Vec3.smul (q / (gamma * P.restMass))
    ((E.add (vv.cross B)).sub (Vec3.smul (vv.dot E / cSq) vv))

/-! ## Effect framing: which state a computation can touch

`RVQPres m` says `m` never changes any particle's position, velocity or
charge (it may freely write scratch registers and `gamma`), on the normal
and on the exceptional path alike.  `NeverFails m` says `m` cannot throw. -/

def RVQPres (m : JsM α) : Prop :=
  ∀ σ : Store, (JsM.resultStore m σ).rvq = σ.rvq

def NeverFails (m : JsM α) : Prop :=
  ∀ σ : Store, ∃ a σ', m σ = .ok (a, σ')

namespace JsM

theorem resultStore_ok {m : JsM α} {σ σ' : Store} {a : α} (h : m σ = .ok (a, σ')) :
    resultStore m σ = σ' := by
  unfold resultStore
  rw [h]

theorem resultStore_error {m : JsM α} {σ σ' : Store} {e : JsError}
    (h : m σ = .error (e, σ')) : resultStore m σ = σ' := by
  unfold resultStore
  rw [h]

theorem rvqPres_bind {m : JsM α} {f : α → JsM β} (hm : RVQPres m)
    (hf : ∀ a, RVQPres (f a)) : RVQPres (m >>= f) := by
  intro σ
  show (resultStore (bindImpl m f) σ).rvq = σ.rvq
  cases hma : m σ with
  | ok p =>
    obtain ⟨a, σ1⟩ := p
    have h1 : σ1.rvq = σ.rvq := by
      have := hm σ
      rwa [resultStore_ok hma] at this
    have h2 := hf a σ1
    unfold resultStore bindImpl
    rw [hma]
    dsimp only
    cases hfa : f a σ1 with
    | ok q =>
      obtain ⟨b, σ2⟩ := q
      rw [resultStore_ok hfa] at h2
      dsimp only
      rw [h2, h1]
    | error q =>
      obtain ⟨e, σ2⟩ := q
      rw [resultStore_error hfa] at h2
      dsimp only
      rw [h2, h1]
  | error p =>
    obtain ⟨e, σ1⟩ := p
    have h1 : σ1.rvq = σ.rvq := by
      have := hm σ
      rwa [resultStore_error hma] at this
    unfold resultStore bindImpl
    rw [hma]
    dsimp only
    rw [h1]

theorem rvqPres_pure (a : α) : RVQPres (pure a : JsM α) := by
  intro σ
  rfl

theorem rvqPres_throwJs (s : String) : RVQPres (throwJs s : JsM α) := by
  intro σ
  rfl

theorem rvqPres_liftE (x : Except JsError ℚ) : RVQPres (liftE x) := by
  intro σ
  cases x <;> rfl

theorem rvqPres_readRef (r : Ref) : RVQPres (readRef r) := by
  intro σ
  rfl

theorem rvqPres_writeTemp (g : Reg) (w : Vec3) : RVQPres (writeTemp g w) := by
  intro σ
  rfl

theorem rvq_set_gamma (l : List PState) (i : ℕ) (g : ℚ) :
    (l.set i { l.getD i defaultP with gamma := g }).map (fun p => (p.r, p.v, p.q))
      = l.map fun p => (p.r, p.v, p.q) := by
  induction l generalizing i with
  | nil => rfl
  | cons hd tl ih =>
    cases i with
    | zero => simp [List.set]
    | succ n =>
      show List.map _ (hd :: tl.set n _) = _
      simp only [List.map, List.getD_cons_succ]
      rw [ih n]

theorem rvqPres_setGamma (i : ℕ) (g : ℚ) : RVQPres (setGamma i g) := by
  intro σ
  show (σ.writeGamma i g).rvq = σ.rvq
  unfold Store.writeGamma Store.rvq
  exact rvq_set_gamma σ.parts i g

theorem rvqPres_getParticle (i : ℕ) : RVQPres (getParticle i) := by
  intro σ
  rfl

theorem rvqPres_getCount : RVQPres getCount := by
  intro σ
  rfl

theorem rvqPres_vcopy (dst : Reg) (src : Ref) : RVQPres (vcopy dst src) :=
  rvqPres_bind (rvqPres_readRef _) fun _ =>
    rvqPres_bind (rvqPres_writeTemp _ _) fun _ => rvqPres_pure _

theorem rvqPres_vmulS (dst : Reg) (s : ℚ) : RVQPres (vmulS dst s) :=
  rvqPres_bind (rvqPres_readRef _) fun _ => rvqPres_writeTemp _ _

theorem rvqPres_vaddRef (dst : Reg) (src : Ref) : RVQPres (vaddRef dst src) :=
  rvqPres_bind (rvqPres_readRef _) fun _ =>
    rvqPres_bind (rvqPres_readRef _) fun _ => rvqPres_writeTemp _ _

theorem rvqPres_vsubRef (dst : Reg) (src : Ref) : RVQPres (vsubRef dst src) :=
  rvqPres_bind (rvqPres_readRef _) fun _ =>
    rvqPres_bind (rvqPres_readRef _) fun _ => rvqPres_writeTemp _ _

theorem rvqPres_vaddScaled (dst : Reg) (src : Ref) (s : ℚ) :
    RVQPres (vaddScaled dst src s) :=
  rvqPres_bind (rvqPres_readRef _) fun _ =>
    rvqPres_bind (rvqPres_readRef _) fun _ => rvqPres_writeTemp _ _

theorem rvqPres_vcrossInto (dst : Reg) (a b : Ref) : RVQPres (vcrossInto dst a b) :=
  rvqPres_bind (rvqPres_readRef _) fun _ =>
    rvqPres_bind (rvqPres_readRef _) fun _ => rvqPres_writeTemp _ _

end JsM

/-! ## No physics function mutates position / velocity / charge -/

namespace Physics

open JsM

theorem rvqPres_electricField (F : FieldFns) (rr : Ref) (t : ℚ) :
    RVQPres (electricField F rr t) :=
  rvqPres_bind (rvqPres_readRef _) fun _ =>
  rvqPres_bind (rvqPres_liftE _) fun _ =>
  rvqPres_bind (rvqPres_liftE _) fun _ =>
  rvqPres_bind (rvqPres_liftE _) fun _ =>
  rvqPres_bind (rvqPres_writeTemp _ _) fun _ =>
  rvqPres_pure _

theorem rvqPres_magneticField (F : FieldFns) (rr : Ref) (t : ℚ) :
    RVQPres (magneticField F rr t) :=
  rvqPres_bind (rvqPres_readRef _) fun _ =>
  rvqPres_bind (rvqPres_liftE _) fun _ =>
  rvqPres_bind (rvqPres_liftE _) fun _ =>
  rvqPres_bind (rvqPres_liftE _) fun _ =>
  rvqPres_bind (rvqPres_writeTemp _ _) fun _ =>
  rvqPres_pure _

theorem rvqPres_coulombLoop (P : Phys) (M : JsMath) (i : ℕ) (js : List ℕ) :
    RVQPres (coulombLoop P M i js) := by
  induction js with
  | nil => exact rvqPres_pure _
  | cons j rest ih =>
    unfold coulombLoop
    split
    · exact ih
    · exact
        rvqPres_bind (rvqPres_getParticle _) fun _ =>
        rvqPres_bind (rvqPres_getParticle _) fun _ =>
        rvqPres_bind (rvqPres_writeTemp _ _) fun _ =>
        rvqPres_bind (rvqPres_readRef _) fun _ =>
        rvqPres_bind (rvqPres_readRef _) fun _ =>
        rvqPres_bind (rvqPres_writeTemp _ _) fun _ =>
        ih

theorem rvqPres_computeCoulombForce (P : Phys) (M : JsMath) (i : ℕ) :
    RVQPres (computeCoulombForce P M i) :=
  rvqPres_bind (rvqPres_writeTemp _ _) fun _ =>
  rvqPres_bind (rvqPres_getCount) fun _ =>
  rvqPres_bind (rvqPres_coulombLoop _ _ _ _) fun _ =>
  rvqPres_pure _

theorem rvqPres_computeAcceleration (P : Phys) (M : JsMath) (F : FieldFns)
    (i : ℕ) (rr vr : Ref) (t : ℚ) :
    RVQPres (computeAcceleration P M F i rr vr t) := by
  unfold computeAcceleration
  split
  · exact
      rvqPres_bind (rvqPres_readRef _) fun _ =>
      rvqPres_bind (rvqPres_setGamma _ _) fun _ =>
      rvqPres_bind (rvqPres_electricField _ _ _) fun _ =>
      rvqPres_bind (rvqPres_magneticField _ _ _) fun _ =>
      rvqPres_bind (rvqPres_readRef _) fun _ =>
      rvqPres_bind (rvqPres_readRef _) fun _ =>
      rvqPres_bind (rvqPres_vcopy _ _) fun _ =>
      rvqPres_bind (rvqPres_vmulS _ _) fun _ =>
      rvqPres_bind (rvqPres_vcrossInto _ _ _) fun _ =>
      rvqPres_bind (rvqPres_vcopy _ _) fun _ =>
      rvqPres_bind (rvqPres_vaddRef _ _) fun _ =>
      rvqPres_bind (rvqPres_vsubRef _ _) fun _ =>
      rvqPres_bind (rvqPres_getParticle _) fun _ =>
      rvqPres_bind (rvqPres_vmulS _ _) fun _ =>
      rvqPres_pure _
  · exact
      rvqPres_bind (rvqPres_setGamma _ _) fun _ =>
      rvqPres_bind (rvqPres_electricField _ _ _) fun _ =>
      rvqPres_bind (rvqPres_magneticField _ _ _) fun _ =>
      rvqPres_bind (rvqPres_vcrossInto _ _ _) fun _ =>
      rvqPres_bind (rvqPres_getParticle _) fun _ =>
      rvqPres_bind (rvqPres_vcopy _ _) fun _ =>
      rvqPres_bind (rvqPres_vaddRef _ _) fun _ =>
      rvqPres_bind (rvqPres_vmulS _ _) fun _ =>
      rvqPres_bind (rvqPres_vcopy _ _) fun _ =>
      rvqPres_bind (rvqPres_vmulS _ _) fun _ =>
      rvqPres_bind (rvqPres_computeCoulombForce _ _ _) fun _ =>
      rvqPres_bind (rvqPres_vaddRef _ _) fun _ =>
      rvqPres_bind (rvqPres_vaddRef _ _) fun _ =>
      rvqPres_bind (rvqPres_vmulS _ _) fun _ =>
      rvqPres_pure _

theorem rvqPres_rk4K1 (P : Phys) (M : JsMath) (F : FieldFns) (i : ℕ) (dt t : ℚ) :
    RVQPres (rk4K1 P M F i dt t) :=
  rvqPres_bind (rvqPres_computeAcceleration P M F i _ _ _) fun _ =>
  rvqPres_bind (rvqPres_vcopy _ _) fun _ =>
  rvqPres_bind (rvqPres_vmulS _ _) fun _ =>
  rvqPres_bind (rvqPres_vcopy _ _) fun _ =>
  rvqPres_vmulS _ _

theorem rvqPres_rk4K2 (P : Phys) (M : JsMath) (F : FieldFns) (i : ℕ) (dt t : ℚ) :
    RVQPres (rk4K2 P M F i dt t) :=
  rvqPres_bind (rvqPres_vcopy _ _) fun _ =>
  rvqPres_bind (rvqPres_vaddScaled _ _ _) fun _ =>
  rvqPres_bind (rvqPres_vcopy _ _) fun _ =>
  rvqPres_bind (rvqPres_vaddScaled _ _ _) fun _ =>
  rvqPres_bind (rvqPres_computeAcceleration P M F i _ _ _) fun _ =>
  rvqPres_bind (rvqPres_vcopy _ _) fun _ =>
  rvqPres_bind (rvqPres_vmulS _ _) fun _ =>
  rvqPres_bind (rvqPres_vcopy _ _) fun _ =>
  rvqPres_vmulS _ _

theorem rvqPres_rk4K3 (P : Phys) (M : JsMath) (F : FieldFns) (i : ℕ) (dt t : ℚ) :
    RVQPres (rk4K3 P M F i dt t) :=
  rvqPres_bind (rvqPres_vcopy _ _) fun _ =>
  rvqPres_bind (rvqPres_vaddScaled _ _ _) fun _ =>
  rvqPres_bind (rvqPres_vcopy _ _) fun _ =>
  rvqPres_bind (rvqPres_vaddScaled _ _ _) fun _ =>
  rvqPres_bind (rvqPres_computeAcceleration P M F i _ _ _) fun _ =>
  rvqPres_bind (rvqPres_vcopy _ _) fun _ =>
  rvqPres_bind (rvqPres_vmulS _ _) fun _ =>
  rvqPres_bind (rvqPres_vcopy _ _) fun _ =>
  rvqPres_vmulS _ _

theorem rvqPres_rk4K4 (P : Phys) (M : JsMath) (F : FieldFns) (i : ℕ) (dt t : ℚ) :
    RVQPres (rk4K4 P M F i dt t) :=
  rvqPres_bind (rvqPres_vcopy _ _) fun _ =>
  rvqPres_bind (rvqPres_vaddRef _ _) fun _ =>
  rvqPres_bind (rvqPres_vcopy _ _) fun _ =>
  rvqPres_bind (rvqPres_vaddRef _ _) fun _ =>
  rvqPres_bind (rvqPres_computeAcceleration P M F i _ _ _) fun _ =>
  rvqPres_bind (rvqPres_vcopy _ _) fun _ =>
  rvqPres_bind (rvqPres_vmulS _ _) fun _ =>
  rvqPres_bind (rvqPres_vcopy _ _) fun _ =>
  rvqPres_vmulS _ _

theorem rvqPres_rk4Combine : RVQPres rk4Combine :=
  rvqPres_bind (rvqPres_vcopy _ _) fun _ =>
  rvqPres_bind (rvqPres_vaddScaled _ _ _) fun _ =>
  rvqPres_bind (rvqPres_vaddScaled _ _ _) fun _ =>
  rvqPres_bind (rvqPres_vaddRef _ _) fun _ =>
  rvqPres_bind (rvqPres_vmulS _ _) fun _ =>
  rvqPres_bind (rvqPres_vcopy _ _) fun _ =>
  rvqPres_bind (rvqPres_vaddScaled _ _ _) fun _ =>
  rvqPres_bind (rvqPres_vaddScaled _ _ _) fun _ =>
  rvqPres_bind (rvqPres_vaddRef _ _) fun _ =>
  rvqPres_vmulS _ _

theorem rvqPres_rk4Step (P : Phys) (M : JsMath) (F : FieldFns) (i : ℕ) (dt t : ℚ) :
    RVQPres (rk4Step P M F i dt t) :=
  rvqPres_bind (rvqPres_rk4K1 P M F i dt t) fun _ =>
  rvqPres_bind (rvqPres_rk4K2 P M F i dt t) fun _ =>
  rvqPres_bind (rvqPres_rk4K3 P M F i dt t) fun _ =>
  rvqPres_bind (rvqPres_rk4K4 P M F i dt t) fun _ =>
  rvqPres_bind rvqPres_rk4Combine fun _ =>
  rvqPres_pure _

end Physics

namespace Simulation

open JsM Physics

theorem rvqPres_computeDeltas (P : Phys) (M : JsMath) (F : FieldFns) (dt t : ℚ)
    (order : List ℕ) : RVQPres (computeDeltas P M F dt t order) := by
  induction order with
  | nil => exact rvqPres_pure _
  | cons i rest ih =>
    unfold computeDeltas
    apply rvqPres_bind (rvqPres_rk4Step P M F i dt t)
    intro _
    apply rvqPres_bind ih
    intro _
    exact rvqPres_pure _

theorem neverFails_bind {m : JsM α} {f : α → JsM β} (hm : NeverFails m)
    (hf : ∀ a, NeverFails (f a)) : NeverFails (m >>= f) := by
  intro σ
  obtain ⟨a, σ1, h1⟩ := hm σ
  obtain ⟨b, σ2, h2⟩ := hf a σ1
  refine ⟨b, σ2, ?_⟩
  show bindImpl m f σ = _
  unfold bindImpl
  rw [h1]
  exact h2

theorem neverFails_pure (a : α) : NeverFails (pure a : JsM α) :=
  fun σ => ⟨a, σ, rfl⟩

theorem neverFails_readRef (r : Ref) : NeverFails (readRef r) :=
  fun σ => ⟨σ.read r, σ, rfl⟩

theorem neverFails_writePr (i : ℕ) (w : Vec3) : NeverFails (writePr i w) :=
  fun σ => ⟨(), σ.writePr i w, rfl⟩

theorem neverFails_writePv (i : ℕ) (w : Vec3) : NeverFails (writePv i w) :=
  fun σ => ⟨(), σ.writePv i w, rfl⟩

theorem neverFails_commitOne (u : DeltaRefs) (i : ℕ) : NeverFails (commitOne u i) := by
  unfold commitOne
  repeat'
    first
      | apply neverFails_bind
      | apply neverFails_pure
      | apply neverFails_readRef
      | apply neverFails_writePr
      | apply neverFails_writePv
      | intro _

theorem neverFails_commitAll (upds : List (ℕ × DeltaRefs)) (idxs : List ℕ) :
    NeverFails (commitAll upds idxs) := by
  induction idxs with
  | nil => exact neverFails_pure _
  | cons i rest ih =>
    unfold commitAll
    apply neverFails_bind (neverFails_commitOne _ _)
    intro _
    exact ih

/-- If the staged frame throws, the store at catch time has every particle's
position, velocity and charge unchanged: the exception can only come from the
delta-computation pass, which never writes those fields, and the commit pass
cannot throw. -/
theorem stepFrameOrder_error_rvq {P : Phys} {M : JsMath} {F : FieldFns}
    {dt t : ℚ} {order : List ℕ} {σ σ' : Store} {e : JsError}
    (h : stepFrameOrder P M F dt t order σ = .error (e, σ')) :
    σ'.rvq = σ.rvq := by
  unfold stepFrameOrder at h
  replace h : bindImpl (computeDeltas P M F dt t order)
      (fun upds => bindImpl getCount
        (fun n => commitAll upds (List.range n))) σ = .error (e, σ') := h
  unfold bindImpl at h
  cases hd : computeDeltas P M F dt t order σ with
  | error p =>
    obtain ⟨e1, σ1⟩ := p
    rw [hd] at h
    cases h
    have := rvqPres_computeDeltas P M F dt t order σ
    rwa [resultStore_error hd] at this
  | ok p =>
    obtain ⟨upds, σ1⟩ := p
    rw [hd] at h
    dsimp only [getCount] at h
    obtain ⟨a, σ2, hc⟩ := neverFails_commitAll upds (List.range σ1.parts.length) σ1
    rw [hc] at h
    cases h

end Simulation

/-! ## Running computations step by step -/

namespace JsM

theorem bind_ok {m : JsM α} {f : α → JsM β} {σ σ1 : Store} {a : α}
    (h : m σ = .ok (a, σ1)) : (m >>= f) σ = f a σ1 := by
  show bindImpl m f σ = f a σ1
  unfold bindImpl
  rw [h]

theorem bind_error {m : JsM α} {f : α → JsM β} {σ σ1 : Store} {e : JsError}
    (h : m σ = .error (e, σ1)) : (m >>= f) σ = .error (e, σ1) := by
  show bindImpl m f σ = .error (e, σ1)
  unfold bindImpl
  rw [h]

theorem run_pure (a : α) (σ : Store) : (pure a : JsM α) σ = .ok (a, σ) := rfl

theorem run_getCount (σ : Store) : getCount σ = .ok (σ.parts.length, σ) := rfl

end JsM

/-! ## Composing staged runs -/

deriving instance DecidableEq for Except

namespace Simulation

open Physics JsM

theorem computeDeltas_nil_run (P : Phys) (M : JsMath) (F : FieldFns) (dt t : ℚ)
    (σ : Store) : computeDeltas P M F dt t [] σ = .ok ([], σ) := rfl

theorem computeDeltas_cons_run {P : Phys} {M : JsMath} {F : FieldFns} {dt t : ℚ}
    {i : ℕ} {rest : List ℕ} {σ σ1 σ2 : Store} {refs : DeltaRefs}
    {more : List (ℕ × DeltaRefs)}
    (h1 : rk4Step P M F i dt t σ = .ok (refs, σ1))
    (h2 : computeDeltas P M F dt t rest σ1 = .ok (more, σ2)) :
    computeDeltas P M F dt t (i :: rest) σ = .ok ((i, refs) :: more, σ2) := by
  show (rk4Step P M F i dt t >>= fun refs =>
      computeDeltas P M F dt t rest >>= fun more => pure ((i, refs) :: more)) σ = _
  rw [JsM.bind_ok h1, JsM.bind_ok h2]
  rfl

theorem computeDeltas_cons_error {P : Phys} {M : JsMath} {F : FieldFns} {dt t : ℚ}
    {i : ℕ} (rest : List ℕ) {σ : Store} {es : JsError × Store}
    (h : rk4Step P M F i dt t σ = .error es) :
    computeDeltas P M F dt t (i :: rest) σ = .error es := by
  show (rk4Step P M F i dt t >>= fun refs =>
      computeDeltas P M F dt t rest >>= fun more => pure ((i, refs) :: more)) σ = _
  exact JsM.bind_error h

theorem stepFrameOrder_run {P : Phys} {M : JsMath} {F : FieldFns} {dt t : ℚ}
    {order : List ℕ} {σ σ1 σ2 : Store} {upds : List (ℕ × DeltaRefs)}
    (h1 : computeDeltas P M F dt t order σ = .ok (upds, σ1))
    (h2 : commitAll upds (List.range σ1.parts.length) σ1 = .ok ((), σ2)) :
    stepFrameOrder P M F dt t order σ = .ok ((), σ2) := by
  unfold stepFrameOrder
  rw [JsM.bind_ok h1, JsM.bind_ok (JsM.run_getCount σ1)]
  exact h2

theorem stepFrameOrder_error_run {P : Phys} {M : JsMath} {F : FieldFns} {dt t : ℚ}
    {order : List ℕ} {σ : Store} {es : JsError × Store}
    (h : computeDeltas P M F dt t order σ = .error es) :
    stepFrameOrder P M F dt t order σ = .error es := by
  unfold stepFrameOrder
  exact JsM.bind_error h

theorem stepFrame_run {P : Phys} {M : JsMath} {F : FieldFns} {dt t : ℚ} {σ : Store}
    {x : Except (JsError × Store) (Unit × Store)}
    (h : stepFrameOrder P M F dt t (List.range σ.parts.length) σ = x) :
    stepFrame P M F dt t σ = x := by
  unfold stepFrame
  rw [JsM.bind_ok (JsM.run_getCount σ)]
  exact h

theorem update_run_ok {P : Phys} {M : JsMath} {F : FieldFns} {now : ℚ}
    (s : SimState) {σ' : Store}
    (hp : s.isPaused = false)
    (hdt : 0 < now - s.lastTimeSec)
    (h : stepFrame P M F (min ((now - s.lastTimeSec) * P.animationSpeed) MAX_DT)
        (s.totalTimeSec + min ((now - s.lastTimeSec) * P.animationSpeed) MAX_DT)
        s.store = .ok ((), σ')) :
    update P M F now s
      = ⟨false, s.totalTimeSec + min ((now - s.lastTimeSec) * P.animationSpeed) MAX_DT,
         now, σ'⟩ := by
  unfold update
  dsimp only
  rw [if_neg (by
    rw [hp]
    simp only [Bool.false_eq_true, false_or, not_le]
    exact hdt), h]
  rw [hp]

theorem update_run_error {P : Phys} {M : JsMath} {F : FieldFns} {now : ℚ}
    (s : SimState) {σ' : Store} {e : JsError}
    (hp : s.isPaused = false)
    (hdt : 0 < now - s.lastTimeSec)
    (h : stepFrame P M F (min ((now - s.lastTimeSec) * P.animationSpeed) MAX_DT)
        (s.totalTimeSec + min ((now - s.lastTimeSec) * P.animationSpeed) MAX_DT)
        s.store = .error (e, σ')) :
    update P M F now s
      = ⟨true, s.totalTimeSec + min ((now - s.lastTimeSec) * P.animationSpeed) MAX_DT,
         now, σ'⟩ := by
  unfold update
  dsimp only
  rw [if_neg (by
    rw [hp]
    simp only [Bool.false_eq_true, false_or, not_le]
    exact hdt), h]

namespace Physics

theorem rk4Step_error_k1 {P : Phys} {M : JsMath} {F : FieldFns} {i : ℕ} {dt t : ℚ}
    {σ : Store} {es : JsError × Store}
    (h : Physics.rk4K1 P M F i dt t σ = .error es) :
    Physics.rk4Step P M F i dt t σ = .error es := by
  unfold Physics.rk4Step
  exact JsM.bind_error h

theorem rk4Step_run {P : Phys} {M : JsMath} {F : FieldFns} {i : ℕ} {dt t : ℚ}
    {σ σ1 σ2 σ3 σ4 σ5 : Store}
    (h1 : Physics.rk4K1 P M F i dt t σ = .ok ((), σ1))
    (h2 : Physics.rk4K2 P M F i dt t σ1 = .ok ((), σ2))
    (h3 : Physics.rk4K3 P M F i dt t σ2 = .ok ((), σ3))
    (h4 : Physics.rk4K4 P M F i dt t σ3 = .ok ((), σ4))
    (h5 : Physics.rk4Combine σ4 = .ok ((), σ5)) :
    Physics.rk4Step P M F i dt t σ = .ok (⟨.reg .r, .reg .v⟩, σ5) := by
  unfold Physics.rk4Step
  rw [JsM.bind_ok h1, JsM.bind_ok h2, JsM.bind_ok h3, JsM.bind_ok h4, JsM.bind_ok h5]
  rfl

end Physics

end Simulation

/-! ## Concrete fixtures used by the claim theorems -/

/-- The `PARAMS.physics` defaults from `src/config.js` (classical mode, `c = 20`,
`restMass = 1`, `friction = 0`, `k_e = 0`, `animationSpeed = 1.5`). -/
def Pdefault : Phys := ⟨false, 20, 1, 0, 0, 3/2⟩

/-- Relativistic parameters with `c = 5` (within the GUI range `1..100`),
unit rest mass, no friction, no Coulomb coupling. -/
def Prel5 : Phys := ⟨true, 5, 1, 0, 0, 3/2⟩

/-- One particle at the origin moving at `(3, 0, 0)` (so `γ = 5/4` at
`c = 5`), fresh scratch pool. -/
def storeV3 : Store := ⟨Temp.init, [⟨Vec3.zero, ⟨3, 0, 0⟩, 1, 1⟩]⟩

/-- Field functions whose `Ex` throws at every evaluation (a user expression
such as `x(1)` compiles but throws a `TypeError` when called). -/
def throwingFields : FieldFns :=
  { zeroFields with Ex := fun _ _ _ _ => .error ⟨"boom"⟩ }

/-- One particle at the origin moving at `(1, 0, 0)`. -/
def sigma0 : Store := ⟨Temp.init, [⟨⟨0, 0, 0⟩, ⟨1, 0, 0⟩, 1, 1⟩]⟩

/-- Two particles with different velocities (so their RK4 deltas differ). -/
def sigma2 : Store :=
  ⟨Temp.init, [⟨⟨0, 0, 0⟩, ⟨6, 0, 0⟩, 1, 1⟩, ⟨⟨1, 0, 0⟩, ⟨12, 0, 0⟩, 1, 1⟩]⟩

/-- Classical parameters with `c = 1` (GUI minimum). -/
def P6 : Phys := ⟨false, 1, 1, 0, 0, 3/2⟩

/-- One particle moving at twice the speed of light of `P6`. -/
def sigma6 : Store := ⟨Temp.init, [⟨⟨0, 0, 0⟩, ⟨2, 0, 0⟩, 1, 1⟩]⟩

/-- Zero rest mass, otherwise the `config.js` defaults. -/
def Pzero : Phys := ⟨false, 20, 0, 0, 0, 3/2⟩

/-- Relativistic parameters with `c = 1`. -/
def PrelE : Phys := ⟨true, 1, 1, 0, 0, 3/2⟩

/-- Field functions with constant `Ex = 1`, all others zero. -/
def fieldsExOne : FieldFns := { zeroFields with Ex := .pure fun _ _ _ _ => 1 }

/-- One particle at rest at the origin. -/
def sigmaRest : Store := ⟨Temp.init, [⟨Vec3.zero, Vec3.zero, 1, 1⟩]⟩

/-! Milestone stores reached by the staged runs used in the proofs below (each
is checked by `decide` against the stage that produces it). -/

def c3A : Store :=
  ⟨⟨⟨0, 0, 0⟩, ⟨0, 0, 0⟩, ⟨0, 0, 0⟩, ⟨0, 0, 0⟩, ⟨0, 0, 0⟩, ⟨0, 0, 0⟩, ⟨1, 0, 0⟩, ⟨0, 0, 0⟩, ⟨0, 0, 0⟩, ⟨0, 0, 0⟩, ⟨0, 0, 0⟩, ⟨0, 0, 0⟩, ⟨0, 0, 0⟩, ⟨0, 0, 0⟩⟩, [⟨⟨0, 0, 0⟩, ⟨1, 0, 0⟩, 1, 1⟩]⟩

def c3E : Store :=
  ⟨⟨⟨0, 0, 0⟩, ⟨0, 0, 0⟩, ⟨0, 0, 0⟩, ⟨0, 0, 0⟩, ⟨(1 : ℚ)/6, 0, 0⟩, ⟨0, 0, 0⟩, ⟨1, 0, 0⟩, ⟨0, 0, 0⟩, ⟨0, 0, 0⟩, ⟨0, 0, 0⟩, ⟨0, 0, 0⟩, ⟨0, 0, 0⟩, ⟨0, 0, 0⟩, ⟨0, 0, 0⟩⟩, [⟨⟨0, 0, 0⟩, ⟨1, 0, 0⟩, 1, 1⟩]⟩

def c7A : Store :=
  ⟨⟨⟨0, 0, 0⟩, ⟨0, 0, 0⟩, ⟨0, 0, 0⟩, ⟨0, 0, 0⟩, ⟨0, 0, 0⟩, ⟨0, 0, 0⟩, ⟨(1 : ℚ)/10, 0, 0⟩, ⟨0, 0, 0⟩, ⟨0, 0, 0⟩, ⟨0, 0, 0⟩, ⟨0, 0, 0⟩, ⟨0, 0, 0⟩, ⟨0, 0, 0⟩, ⟨0, 0, 0⟩⟩, [⟨⟨0, 0, 0⟩, ⟨3, 0, 0⟩, 1, (5 : ℚ)/4⟩]⟩

def c7E : Store :=
  ⟨⟨⟨0, 0, 0⟩, ⟨0, 0, 0⟩, ⟨0, 0, 0⟩, ⟨0, 0, 0⟩, ⟨(1 : ℚ)/60, 0, 0⟩, ⟨0, 0, 0⟩, ⟨(1 : ℚ)/10, 0, 0⟩, ⟨0, 0, 0⟩, ⟨0, 0, 0⟩, ⟨0, 0, 0⟩, ⟨0, 0, 0⟩, ⟨0, 0, 0⟩, ⟨0, 0, 0⟩, ⟨0, 0, 0⟩⟩, [⟨⟨0, 0, 0⟩, ⟨3, 0, 0⟩, 1, (5 : ℚ)/4⟩]⟩

def a0A : Store :=
  ⟨⟨⟨0, 0, 0⟩, ⟨0, 0, 0⟩, ⟨0, 0, 0⟩, ⟨0, 0, 0⟩, ⟨-1, 0, 0⟩, ⟨0, 0, 0⟩, ⟨6, 0, 0⟩, ⟨0, 0, 0⟩, ⟨0, 0, 0⟩, ⟨0, 0, 0⟩, ⟨0, 0, 0⟩, ⟨0, 0, 0⟩, ⟨0, 0, 0⟩, ⟨0, 0, 0⟩⟩, [⟨⟨0, 0, 0⟩, ⟨6, 0, 0⟩, 1, 1⟩, ⟨⟨1, 0, 0⟩, ⟨12, 0, 0⟩, 1, 1⟩]⟩

def a0E : Store :=
  ⟨⟨⟨0, 0, 0⟩, ⟨0, 0, 0⟩, ⟨0, 0, 0⟩, ⟨0, 0, 0⟩, ⟨1, 0, 0⟩, ⟨0, 0, 0⟩, ⟨6, 0, 0⟩, ⟨0, 0, 0⟩, ⟨0, 0, 0⟩, ⟨0, 0, 0⟩, ⟨0, 0, 0⟩, ⟨0, 0, 0⟩, ⟨0, 0, 0⟩, ⟨0, 0, 0⟩⟩, [⟨⟨0, 0, 0⟩, ⟨6, 0, 0⟩, 1, 1⟩, ⟨⟨1, 0, 0⟩, ⟨12, 0, 0⟩, 1, 1⟩]⟩

def a1A : Store :=
  ⟨⟨⟨0, 0, 0⟩, ⟨0, 0, 0⟩, ⟨0, 0, 0⟩, ⟨0, 0, 0⟩, ⟨1, 0, 0⟩, ⟨0, 0, 0⟩, ⟨12, 0, 0⟩, ⟨0, 0, 0⟩, ⟨0, 0, 0⟩, ⟨0, 0, 0⟩, ⟨0, 0, 0⟩, ⟨0, 0, 0⟩, ⟨0, 0, 0⟩, ⟨0, 0, 0⟩⟩, [⟨⟨0, 0, 0⟩, ⟨6, 0, 0⟩, 1, 1⟩, ⟨⟨1, 0, 0⟩, ⟨12, 0, 0⟩, 1, 1⟩]⟩

def a1E : Store :=
  ⟨⟨⟨0, 0, 0⟩, ⟨0, 0, 0⟩, ⟨0, 0, 0⟩, ⟨0, 0, 0⟩, ⟨2, 0, 0⟩, ⟨0, 0, 0⟩, ⟨12, 0, 0⟩, ⟨0, 0, 0⟩, ⟨0, 0, 0⟩, ⟨0, 0, 0⟩, ⟨0, 0, 0⟩, ⟨0, 0, 0⟩, ⟨0, 0, 0⟩, ⟨0, 0, 0⟩⟩, [⟨⟨0, 0, 0⟩, ⟨6, 0, 0⟩, 1, 1⟩, ⟨⟨1, 0, 0⟩, ⟨12, 0, 0⟩, 1, 1⟩]⟩

def commA : Store :=
  ⟨⟨⟨0, 0, 0⟩, ⟨0, 0, 0⟩, ⟨0, 0, 0⟩, ⟨0, 0, 0⟩, ⟨2, 0, 0⟩, ⟨0, 0, 0⟩, ⟨12, 0, 0⟩, ⟨0, 0, 0⟩, ⟨0, 0, 0⟩, ⟨0, 0, 0⟩, ⟨0, 0, 0⟩, ⟨0, 0, 0⟩, ⟨0, 0, 0⟩, ⟨0, 0, 0⟩⟩, [⟨⟨2, 0, 0⟩, ⟨6, 0, 0⟩, 1, 1⟩, ⟨⟨3, 0, 0⟩, ⟨12, 0, 0⟩, 1, 1⟩]⟩

def commB : Store :=
  ⟨⟨⟨0, 0, 0⟩, ⟨0, 0, 0⟩, ⟨0, 0, 0⟩, ⟨0, 0, 0⟩, ⟨1, 0, 0⟩, ⟨0, 0, 0⟩, ⟨6, 0, 0⟩, ⟨0, 0, 0⟩, ⟨0, 0, 0⟩, ⟨0, 0, 0⟩, ⟨0, 0, 0⟩, ⟨0, 0, 0⟩, ⟨0, 0, 0⟩, ⟨0, 0, 0⟩⟩, [⟨⟨1, 0, 0⟩, ⟨6, 0, 0⟩, 1, 1⟩, ⟨⟨2, 0, 0⟩, ⟨12, 0, 0⟩, 1, 1⟩]⟩

def c6A : Store :=
  ⟨⟨⟨0, 0, 0⟩, ⟨0, 0, 0⟩, ⟨0, 0, 0⟩, ⟨0, 0, 0⟩, ⟨0, 0, 0⟩, ⟨0, 0, 0⟩, ⟨(1 : ℚ)/15, 0, 0⟩, ⟨0, 0, 0⟩, ⟨0, 0, 0⟩, ⟨0, 0, 0⟩, ⟨0, 0, 0⟩, ⟨0, 0, 0⟩, ⟨0, 0, 0⟩, ⟨0, 0, 0⟩⟩, [⟨⟨0, 0, 0⟩, ⟨2, 0, 0⟩, 1, 1⟩]⟩

def c6E : Store :=
  ⟨⟨⟨0, 0, 0⟩, ⟨0, 0, 0⟩, ⟨0, 0, 0⟩, ⟨0, 0, 0⟩, ⟨(1 : ℚ)/90, 0, 0⟩, ⟨0, 0, 0⟩, ⟨(1 : ℚ)/15, 0, 0⟩, ⟨0, 0, 0⟩, ⟨0, 0, 0⟩, ⟨0, 0, 0⟩, ⟨0, 0, 0⟩, ⟨0, 0, 0⟩, ⟨0, 0, 0⟩, ⟨0, 0, 0⟩⟩, [⟨⟨0, 0, 0⟩, ⟨2, 0, 0⟩, 1, 1⟩]⟩

def c6F : Store :=
  ⟨⟨⟨0, 0, 0⟩, ⟨0, 0, 0⟩, ⟨0, 0, 0⟩, ⟨0, 0, 0⟩, ⟨(1 : ℚ)/90, 0, 0⟩, ⟨0, 0, 0⟩, ⟨(1 : ℚ)/15, 0, 0⟩, ⟨0, 0, 0⟩, ⟨0, 0, 0⟩, ⟨0, 0, 0⟩, ⟨0, 0, 0⟩, ⟨0, 0, 0⟩, ⟨0, 0, 0⟩, ⟨0, 0, 0⟩⟩, [⟨⟨(1 : ℚ)/90, 0, 0⟩, ⟨2, 0, 0⟩, 1, 1⟩]⟩

def g20m1 : Store :=
  ⟨⟨⟨6, 0, 0⟩, ⟨0, 0, 0⟩, ⟨0, 0, 0⟩, ⟨0, 0, 0⟩, ⟨-1, 0, 0⟩, ⟨0, 0, 0⟩, ⟨6, 0, 0⟩, ⟨0, 0, 0⟩, ⟨0, 0, 0⟩, ⟨0, 0, 0⟩, ⟨0, 0, 0⟩, ⟨0, 0, 0⟩, ⟨0, 0, 0⟩, ⟨0, 0, 0⟩⟩, [⟨⟨0, 0, 0⟩, ⟨6, 0, 0⟩, 1, 1⟩, ⟨⟨1, 0, 0⟩, ⟨12, 0, 0⟩, 1, 1⟩]⟩

def g20m4 : Store :=
  ⟨⟨⟨6, 0, 0⟩, ⟨3, 0, 0⟩, ⟨0, 0, 0⟩, ⟨0, 0, 0⟩, ⟨-1, 0, 0⟩, ⟨0, 0, 0⟩, ⟨6, 0, 0⟩, ⟨0, 0, 0⟩, ⟨0, 0, 0⟩, ⟨0, 0, 0⟩, ⟨0, 0, 0⟩, ⟨0, 0, 0⟩, ⟨0, 0, 0⟩, ⟨0, 0, 0⟩⟩, [⟨⟨0, 0, 0⟩, ⟨6, 0, 0⟩, 1, 1⟩, ⟨⟨1, 0, 0⟩, ⟨12, 0, 0⟩, 1, 1⟩]⟩

def g21m1 : Store :=
  ⟨⟨⟨12, 0, 0⟩, ⟨0, 0, 0⟩, ⟨0, 0, 0⟩, ⟨0, 0, 0⟩, ⟨1, 0, 0⟩, ⟨0, 0, 0⟩, ⟨12, 0, 0⟩, ⟨0, 0, 0⟩, ⟨0, 0, 0⟩, ⟨0, 0, 0⟩, ⟨0, 0, 0⟩, ⟨0, 0, 0⟩, ⟨0, 0, 0⟩, ⟨0, 0, 0⟩⟩, [⟨⟨0, 0, 0⟩, ⟨6, 0, 0⟩, 1, 1⟩, ⟨⟨1, 0, 0⟩, ⟨12, 0, 0⟩, 1, 1⟩]⟩

def g21m3 : Store :=
  ⟨⟨⟨12, 0, 0⟩, ⟨1, 0, 0⟩, ⟨0, 0, 0⟩, ⟨0, 0, 0⟩, ⟨1, 0, 0⟩, ⟨0, 0, 0⟩, ⟨12, 0, 0⟩, ⟨0, 0, 0⟩, ⟨0, 0, 0⟩, ⟨0, 0, 0⟩, ⟨0, 0, 0⟩, ⟨0, 0, 0⟩, ⟨0, 0, 0⟩, ⟨0, 0, 0⟩⟩, [⟨⟨0, 0, 0⟩, ⟨6, 0, 0⟩, 1, 1⟩, ⟨⟨1, 0, 0⟩, ⟨12, 0, 0⟩, 1, 1⟩]⟩

def g21m4 : Store :=
  ⟨⟨⟨12, 0, 0⟩, ⟨7, 0, 0⟩, ⟨0, 0, 0⟩, ⟨0, 0, 0⟩, ⟨1, 0, 0⟩, ⟨0, 0, 0⟩, ⟨12, 0, 0⟩, ⟨0, 0, 0⟩, ⟨0, 0, 0⟩, ⟨0, 0, 0⟩, ⟨0, 0, 0⟩, ⟨0, 0, 0⟩, ⟨0, 0, 0⟩, ⟨0, 0, 0⟩⟩, [⟨⟨0, 0, 0⟩, ⟨6, 0, 0⟩, 1, 1⟩, ⟨⟨1, 0, 0⟩, ⟨12, 0, 0⟩, 1, 1⟩]⟩

/-- The state `storeV3` after the particle's `gamma` was rewritten to `5/4`. -/
def storeV3g : Store := ⟨Temp.init, [⟨Vec3.zero, ⟨3, 0, 0⟩, 1, (5 : ℚ)/4⟩]⟩

/-! ## Claim theorems -/

set_option maxRecDepth 100000
set_option maxHeartbeats 1000000

/-- C10: when the simulation is paused or the wall-clock delta is not
positive, `Simulation.update` writes only `lastTimeSec` (set to the current
wall-clock reading, as it is on every call) and leaves every particle and the
clock untouched. -/
theorem C10_paused_update_writes_only_lastTime (P : Phys) (M : JsMath)
    (F : FieldFns) (now : ℚ) (s : Simulation.SimState) :
    (Simulation.update P M F now s).lastTimeSec = now
    ∧ ((s.isPaused = true ∨ now - s.lastTimeSec ≤ 0) →
        Simulation.update P M F now s = { s with lastTimeSec := now }) := by
  constructor
  · unfold Simulation.update
    dsimp only
    split
    · rfl
    · split
      · rfl
      · rfl
  · intro h
    unfold Simulation.update
    dsimp only
    rw [if_pos]
    exact h

/-- C10 witness: a concrete paused state. -/
theorem C10_paused_update_writes_only_lastTime_witness :
    Simulation.update Pdefault mathSpec zeroFields 7
        ⟨true, 2, 3, ⟨Temp.init, [⟨Vec3.zero, ⟨1, 0, 0⟩, 1, 1⟩]⟩⟩
      = ⟨true, 2, 7, ⟨Temp.init, [⟨Vec3.zero, ⟨1, 0, 0⟩, 1, 1⟩]⟩⟩ :=
  (C10_paused_update_writes_only_lastTime Pdefault mathSpec zeroFields 7
      ⟨true, 2, 3, ⟨Temp.init, [⟨Vec3.zero, ⟨1, 0, 0⟩, 1, 1⟩]⟩⟩).2 (Or.inl rfl)

/-- C7 amended claim: `rk4Step` (with all the `computeAcceleration` calls it
makes) never mutates any particle's position, velocity or charge — on the
normal and the exceptional path alike — but it does write the `gamma` field
(see the counterexample theorem). -/
theorem C7_rk4Step_preserves_r_v_q (P : Phys) (M : JsMath) (F : FieldFns)
    (i : ℕ) (dt t : ℚ) (σ : Store) :
    (JsM.resultStore (Physics.rk4Step P M F i dt t) σ).rvq = σ.rvq :=
  Physics.rvqPres_rk4Step P M F i dt t σ

/-- C9 amended claim, positive part: the `main.js` variant's `rk4Step` throws
`'Rest mass cannot be zero!'` (leaving the store untouched) whenever the
configured rest mass is zero. -/
theorem C9_main_rk4Step_throws_on_zero_mass (P : Phys) (M : JsMath)
    (F : FieldFns) (i : ℕ) (dt t : ℚ) (σ : Store) (h : P.restMass = 0) :
    MainPhysics.rk4Step P M F i dt t σ = .error (⟨"Rest mass cannot be zero!"⟩, σ) := by
  unfold MainPhysics.rk4Step
  rw [if_pos h]
  rfl

/-- C9 witness: the guard fires at a concrete zero-mass configuration. -/
theorem C9_main_rk4Step_throws_on_zero_mass_witness :
    MainPhysics.rk4Step ⟨false, 20, 0, 0, 0, 3/2⟩ mathSpec zeroFields 0 1 0
        ⟨Temp.init, [⟨Vec3.zero, ⟨1, 0, 0⟩, 1, 1⟩]⟩
      = .error (⟨"Rest mass cannot be zero!"⟩,
          ⟨Temp.init, [⟨Vec3.zero, ⟨1, 0, 0⟩, 1, 1⟩]⟩) :=
  C9_main_rk4Step_throws_on_zero_mass _ mathSpec zeroFields 0 1 0 _ rfl

/-- C6 amended claim, positive part: the radicand of the Lorentz-factor
computation is strictly positive whenever `c² > ε`, so the clamped `γ`
computation never divides by zero nor takes the square root of a negative
number. -/
theorem C6_gammaRadicand_pos (P : Phys) (vv : Vec3)
    (h : C_SQUARED_EPSILON < P.c * P.c) : 0 < Physics.gammaRadicand P vv := by
  unfold Physics.gammaRadicand
  have heps : (0 : ℚ) < C_SQUARED_EPSILON := by norm_num [C_SQUARED_EPSILON]
  have hc : (0 : ℚ) < P.c * P.c := lt_trans heps h
  have h1 : min vv.lengthSq (P.c * P.c - C_SQUARED_EPSILON)
      ≤ P.c * P.c - C_SQUARED_EPSILON := min_le_right _ _
  have h2 : min vv.lengthSq (P.c * P.c - C_SQUARED_EPSILON) / (P.c * P.c)
      ≤ (P.c * P.c - C_SQUARED_EPSILON) / (P.c * P.c) :=
    (div_le_div_right hc).mpr h1
  have h3 : (P.c * P.c - C_SQUARED_EPSILON) / (P.c * P.c) < 1 := by
    rw [div_lt_one hc]
    linarith
  linarith

/-- C6 witness: the radicand is positive at a configuration whose velocity
greatly exceeds `c`. -/
theorem C6_gammaRadicand_pos_witness :
    0 < Physics.gammaRadicand ⟨false, 1, 1, 0, 0, 3/2⟩ ⟨2, 0, 0⟩ :=
  C6_gammaRadicand_pos ⟨false, 1, 1, 0, 0, 3/2⟩ ⟨2, 0, 0⟩
    (by norm_num [C_SQUARED_EPSILON])

/-- C5 counterexample: with a valid new `Ex` ("1") and an invalid `Ey`,
`compileFieldFunctions` reports the failure but has already installed the new
`Ex`: the previously compiled `Ex` (which returned `0`) is no longer in
effect, so the six prior functions do not all remain active. -/
theorem C5_partial_install_on_failure :
    (compileFieldFunctions
        ⟨.ok (.pure fun _ _ _ _ => 1), .error ⟨"bad"⟩,
         .ok (.pure fun _ _ _ _ => 0), .ok (.pure fun _ _ _ _ => 0),
         .ok (.pure fun _ _ _ _ => 0), .ok (.pure fun _ _ _ _ => 0)⟩
        zeroFields).2 = some ⟨"bad"⟩
    ∧ (compileFieldFunctions
        ⟨.ok (.pure fun _ _ _ _ => 1), .error ⟨"bad"⟩,
         .ok (.pure fun _ _ _ _ => 0), .ok (.pure fun _ _ _ _ => 0),
         .ok (.pure fun _ _ _ _ => 0), .ok (.pure fun _ _ _ _ => 0)⟩
        zeroFields).1.Ex 0 0 0 0 = .ok 1
    ∧ zeroFields.Ex 0 0 0 0 = .ok 0 :=
  ⟨rfl, rfl, rfl⟩

/-- C5 amended claim: on the first compilation failure the functions already
assigned (those preceding the offending expression in the order `Ex, Ey, Ez,
Bx, By, Bz`) stay installed while the remaining ones keep their previous
versions, and the caller is notified via the error return; when all six
compile, `Ex` alone is sanity-evaluated at `(0,0,0,0)`, a throw there being
reported as failure (with all six new functions left installed). -/
theorem C5_first_failure_semantics (cur : FieldFns) (f1 f2 f3 f4 f5 f6 : FieldFn)
    (e : JsError) (i2 i3 i4 i5 i6 : Except JsError FieldFn) :
    compileFieldFunctions ⟨.error e, i2, i3, i4, i5, i6⟩ cur = (cur, some e)
    ∧ compileFieldFunctions ⟨.ok f1, .error e, i3, i4, i5, i6⟩ cur
        = ({ cur with Ex := f1 }, some e)
    ∧ compileFieldFunctions ⟨.ok f1, .ok f2, .error e, i4, i5, i6⟩ cur
        = ({ cur with Ex := f1, Ey := f2 }, some e)
    ∧ (f1 0 0 0 0 = .error e →
        compileFieldFunctions ⟨.ok f1, .ok f2, .ok f3, .ok f4, .ok f5, .ok f6⟩ cur
          = (⟨f1, f2, f3, f4, f5, f6⟩, some e))
    ∧ (∀ w : ℚ, f1 0 0 0 0 = .ok w →
        compileFieldFunctions ⟨.ok f1, .ok f2, .ok f3, .ok f4, .ok f5, .ok f6⟩ cur
          = (⟨f1, f2, f3, f4, f5, f6⟩, none)) := by
  refine ⟨rfl, rfl, rfl, ?_, ?_⟩
  · intro h
    simp only [compileFieldFunctions, h]
  · intro w h
    simp only [compileFieldFunctions, h]

/-- C5 witness: successful compilation of six total functions installs all
six and returns success. -/
theorem C5_first_failure_semantics_witness :
    compileFieldFunctions
        ⟨.ok (.pure fun _ _ _ _ => 1), .ok (.pure fun _ _ _ _ => 0),
         .ok (.pure fun _ _ _ _ => 0), .ok (.pure fun _ _ _ _ => 0),
         .ok (.pure fun _ _ _ _ => 0), .ok (.pure fun _ _ _ _ => 0)⟩
        zeroFields
      = (⟨.pure fun _ _ _ _ => 1, .pure fun _ _ _ _ => 0, .pure fun _ _ _ _ => 0,
          .pure fun _ _ _ _ => 0, .pure fun _ _ _ _ => 0, .pure fun _ _ _ _ => 0⟩,
         none) :=
  (C5_first_failure_semantics zeroFields _ _ _ _ _ _ ⟨"unused"⟩
      (.ok (.pure fun _ _ _ _ => 0)) (.ok (.pure fun _ _ _ _ => 0))
      (.ok (.pure fun _ _ _ _ => 0)) (.ok (.pure fun _ _ _ _ => 0))
      (.ok (.pure fun _ _ _ _ => 0))).2.2.2.2 1 rfl

/-- C4 amended claim: when the staged frame throws, `Simulation.update`
transitions to Paused and every particle's position, velocity and charge are
left at their last committed values; but the clock has already advanced by
`dt` (the `totalTimeSec += dt` on line 53 precedes the `try`), `lastTimeSec`
holds the new wall-clock reading, and `gamma` fields written during delta
computation keep their new values (the store at catch time is the throw-time
store). -/
theorem C4_exception_pauses_and_preserves_r_v_q (P : Phys) (M : JsMath)
    (F : FieldFns) (now : ℚ) (s : Simulation.SimState) (e : JsError) (σ' : Store)
    (hp : s.isPaused = false)
    (hdt : 0 < now - s.lastTimeSec)
    (he : Simulation.stepFrame P M F
        (min ((now - s.lastTimeSec) * P.animationSpeed) MAX_DT)
        (s.totalTimeSec + min ((now - s.lastTimeSec) * P.animationSpeed) MAX_DT)
        s.store = .error (e, σ')) :
    Simulation.update P M F now s
      = ⟨true, s.totalTimeSec + min ((now - s.lastTimeSec) * P.animationSpeed) MAX_DT,
         now, σ'⟩
    ∧ σ'.rvq = s.store.rvq := by
  constructor
  · unfold Simulation.update
    dsimp only
    rw [if_neg (by
      rw [hp]
      simp only [Bool.false_eq_true, false_or, not_le]
      exact hdt), he]
  · have he' : Simulation.stepFrameOrder P M F
        (min ((now - s.lastTimeSec) * P.animationSpeed) MAX_DT)
        (s.totalTimeSec + min ((now - s.lastTimeSec) * P.animationSpeed) MAX_DT)
        (List.range s.store.parts.length) s.store = .error (e, σ') := he
    exact Simulation.stepFrameOrder_error_rvq he'


/-! ## Field functions that never throw make the whole physics pass total -/

/-- All six compiled components return a value at every argument. -/
def FieldFns.Total (F : FieldFns) : Prop :=
  (∀ x y z t, ∃ w, F.Ex x y z t = .ok w) ∧ (∀ x y z t, ∃ w, F.Ey x y z t = .ok w)
  ∧ (∀ x y z t, ∃ w, F.Ez x y z t = .ok w) ∧ (∀ x y z t, ∃ w, F.Bx x y z t = .ok w)
  ∧ (∀ x y z t, ∃ w, F.By x y z t = .ok w) ∧ (∀ x y z t, ∃ w, F.Bz x y z t = .ok w)

theorem zeroFields_total : zeroFields.Total := by
  refine ⟨?_, ?_, ?_, ?_, ?_, ?_⟩ <;> exact fun x y z t => ⟨0, rfl⟩

namespace JsM

theorem neverFails_liftE_of_ok {x : Except JsError ℚ} (h : ∃ w, x = .ok w) :
    NeverFails (liftE x) := by
  obtain ⟨w, hw⟩ := h
  intro σ
  exact ⟨w, σ, by rw [hw]; rfl⟩

theorem neverFails_writeTemp (g : Reg) (w : Vec3) : NeverFails (writeTemp g w) :=
  fun σ => ⟨(), σ.writeTemp g w, rfl⟩

theorem neverFails_setGamma (i : ℕ) (g : ℚ) : NeverFails (setGamma i g) :=
  fun σ => ⟨(), σ.writeGamma i g, rfl⟩

theorem neverFails_getParticle (i : ℕ) : NeverFails (getParticle i) :=
  fun σ => ⟨σ.parts.getD i defaultP, σ, rfl⟩

theorem neverFails_getCount : NeverFails getCount :=
  fun σ => ⟨σ.parts.length, σ, rfl⟩

end JsM

namespace Physics

open JsM Simulation

theorem neverFails_vcopy (dst : Reg) (src : Ref) : NeverFails (vcopy dst src) :=
  neverFails_bind (neverFails_readRef _) fun _ =>
  neverFails_bind (neverFails_writeTemp _ _) fun _ => neverFails_pure _

theorem neverFails_vmulS (dst : Reg) (s : ℚ) : NeverFails (vmulS dst s) :=
  neverFails_bind (neverFails_readRef _) fun _ => neverFails_writeTemp _ _

theorem neverFails_vaddRef (dst : Reg) (src : Ref) : NeverFails (vaddRef dst src) :=
  neverFails_bind (neverFails_readRef _) fun _ =>
  neverFails_bind (neverFails_readRef _) fun _ => neverFails_writeTemp _ _

theorem neverFails_vsubRef (dst : Reg) (src : Ref) : NeverFails (vsubRef dst src) :=
  neverFails_bind (neverFails_readRef _) fun _ =>
  neverFails_bind (neverFails_readRef _) fun _ => neverFails_writeTemp _ _

theorem neverFails_vaddScaled (dst : Reg) (src : Ref) (s : ℚ) :
    NeverFails (vaddScaled dst src s) :=
  neverFails_bind (neverFails_readRef _) fun _ =>
  neverFails_bind (neverFails_readRef _) fun _ => neverFails_writeTemp _ _

theorem neverFails_vcrossInto (dst : Reg) (a b : Ref) : NeverFails (vcrossInto dst a b) :=
  neverFails_bind (neverFails_readRef _) fun _ =>
  neverFails_bind (neverFails_readRef _) fun _ => neverFails_writeTemp _ _

theorem neverFails_electricField {F : FieldFns} (hF : F.Total) (rr : Ref) (t : ℚ) :
    NeverFails (electricField F rr t) :=
  neverFails_bind (neverFails_readRef _) fun p =>
  neverFails_bind (neverFails_liftE_of_ok (hF.1 p.x p.y p.z t)) fun _ =>
  neverFails_bind (neverFails_liftE_of_ok (hF.2.1 p.x p.y p.z t)) fun _ =>
  neverFails_bind (neverFails_liftE_of_ok (hF.2.2.1 p.x p.y p.z t)) fun _ =>
  neverFails_bind (neverFails_writeTemp _ _) fun _ =>
  neverFails_pure _

theorem neverFails_magneticField {F : FieldFns} (hF : F.Total) (rr : Ref) (t : ℚ) :
    NeverFails (magneticField F rr t) :=
  neverFails_bind (neverFails_readRef _) fun p =>
  neverFails_bind (neverFails_liftE_of_ok (hF.2.2.2.1 p.x p.y p.z t)) fun _ =>
  neverFails_bind (neverFails_liftE_of_ok (hF.2.2.2.2.1 p.x p.y p.z t)) fun _ =>
  neverFails_bind (neverFails_liftE_of_ok (hF.2.2.2.2.2 p.x p.y p.z t)) fun _ =>
  neverFails_bind (neverFails_writeTemp _ _) fun _ =>
  neverFails_pure _

theorem neverFails_coulombLoop (P : Phys) (M : JsMath) (i : ℕ) (js : List ℕ) :
    NeverFails (coulombLoop P M i js) := by
  induction js with
  | nil => exact neverFails_pure _
  | cons j rest ih =>
    unfold coulombLoop
    split
    · exact ih
    · exact
        neverFails_bind (neverFails_getParticle _) fun _ =>
        neverFails_bind (neverFails_getParticle _) fun _ =>
        neverFails_bind (neverFails_writeTemp _ _) fun _ =>
        neverFails_bind (neverFails_readRef _) fun _ =>
        neverFails_bind (neverFails_readRef _) fun _ =>
        neverFails_bind (neverFails_writeTemp _ _) fun _ =>
        ih

theorem neverFails_computeCoulombForce (P : Phys) (M : JsMath) (i : ℕ) :
    NeverFails (computeCoulombForce P M i) :=
  neverFails_bind (neverFails_writeTemp _ _) fun _ =>
  neverFails_bind neverFails_getCount fun _ =>
  neverFails_bind (neverFails_coulombLoop _ _ _ _) fun _ =>
  neverFails_pure _

theorem neverFails_computeAcceleration (P : Phys) (M : JsMath) {F : FieldFns}
    (hF : F.Total) (i : ℕ) (rr vr : Ref) (t : ℚ) :
    NeverFails (computeAcceleration P M F i rr vr t) := by
  unfold computeAcceleration
  split
  · exact
      neverFails_bind (neverFails_readRef _) fun _ =>
      neverFails_bind (neverFails_setGamma _ _) fun _ =>
      neverFails_bind (neverFails_electricField hF _ _) fun _ =>
      neverFails_bind (neverFails_magneticField hF _ _) fun _ =>
      neverFails_bind (neverFails_readRef _) fun _ =>
      neverFails_bind (neverFails_readRef _) fun _ =>
      neverFails_bind (neverFails_vcopy _ _) fun _ =>
      neverFails_bind (neverFails_vmulS _ _) fun _ =>
      neverFails_bind (neverFails_vcrossInto _ _ _) fun _ =>
      neverFails_bind (neverFails_vcopy _ _) fun _ =>
      neverFails_bind (neverFails_vaddRef _ _) fun _ =>
      neverFails_bind (neverFails_vsubRef _ _) fun _ =>
      neverFails_bind (neverFails_getParticle _) fun _ =>
      neverFails_bind (neverFails_vmulS _ _) fun _ =>
      neverFails_pure _
  · exact
      neverFails_bind (neverFails_setGamma _ _) fun _ =>
      neverFails_bind (neverFails_electricField hF _ _) fun _ =>
      neverFails_bind (neverFails_magneticField hF _ _) fun _ =>
      neverFails_bind (neverFails_vcrossInto _ _ _) fun _ =>
      neverFails_bind (neverFails_getParticle _) fun _ =>
      neverFails_bind (neverFails_vcopy _ _) fun _ =>
      neverFails_bind (neverFails_vaddRef _ _) fun _ =>
      neverFails_bind (neverFails_vmulS _ _) fun _ =>
      neverFails_bind (neverFails_vcopy _ _) fun _ =>
      neverFails_bind (neverFails_vmulS _ _) fun _ =>
      neverFails_bind (neverFails_computeCoulombForce _ _ _) fun _ =>
      neverFails_bind (neverFails_vaddRef _ _) fun _ =>
      neverFails_bind (neverFails_vaddRef _ _) fun _ =>
      neverFails_bind (neverFails_vmulS _ _) fun _ =>
      neverFails_pure _

theorem neverFails_rk4K1 (P : Phys) (M : JsMath) {F : FieldFns} (hF : F.Total)
    (i : ℕ) (dt t : ℚ) : NeverFails (rk4K1 P M F i dt t) :=
  neverFails_bind (neverFails_computeAcceleration P M hF i _ _ _) fun _ =>
  neverFails_bind (neverFails_vcopy _ _) fun _ =>
  neverFails_bind (neverFails_vmulS _ _) fun _ =>
  neverFails_bind (neverFails_vcopy _ _) fun _ =>
  neverFails_vmulS _ _

theorem neverFails_rk4K2 (P : Phys) (M : JsMath) {F : FieldFns} (hF : F.Total)
    (i : ℕ) (dt t : ℚ) : NeverFails (rk4K2 P M F i dt t) :=
  neverFails_bind (neverFails_vcopy _ _) fun _ =>
  neverFails_bind (neverFails_vaddScaled _ _ _) fun _ =>
  neverFails_bind (neverFails_vcopy _ _) fun _ =>
  neverFails_bind (neverFails_vaddScaled _ _ _) fun _ =>
  neverFails_bind (neverFails_computeAcceleration P M hF i _ _ _) fun _ =>
  neverFails_bind (neverFails_vcopy _ _) fun _ =>
  neverFails_bind (neverFails_vmulS _ _) fun _ =>
  neverFails_bind (neverFails_vcopy _ _) fun _ =>
  neverFails_vmulS _ _

theorem neverFails_rk4K3 (P : Phys) (M : JsMath) {F : FieldFns} (hF : F.Total)
    (i : ℕ) (dt t : ℚ) : NeverFails (rk4K3 P M F i dt t) :=
  neverFails_bind (neverFails_vcopy _ _) fun _ =>
  neverFails_bind (neverFails_vaddScaled _ _ _) fun _ =>
  neverFails_bind (neverFails_vcopy _ _) fun _ =>
  neverFails_bind (neverFails_vaddScaled _ _ _) fun _ =>
  neverFails_bind (neverFails_computeAcceleration P M hF i _ _ _) fun _ =>
  neverFails_bind (neverFails_vcopy _ _) fun _ =>
  neverFails_bind (neverFails_vmulS _ _) fun _ =>
  neverFails_bind (neverFails_vcopy _ _) fun _ =>
  neverFails_vmulS _ _

theorem neverFails_rk4K4 (P : Phys) (M : JsMath) {F : FieldFns} (hF : F.Total)
    (i : ℕ) (dt t : ℚ) : NeverFails (rk4K4 P M F i dt t) :=
  neverFails_bind (neverFails_vcopy _ _) fun _ =>
  neverFails_bind (neverFails_vaddRef _ _) fun _ =>
  neverFails_bind (neverFails_vcopy _ _) fun _ =>
  neverFails_bind (neverFails_vaddRef _ _) fun _ =>
  neverFails_bind (neverFails_computeAcceleration P M hF i _ _ _) fun _ =>
  neverFails_bind (neverFails_vcopy _ _) fun _ =>
  neverFails_bind (neverFails_vmulS _ _) fun _ =>
  neverFails_bind (neverFails_vcopy _ _) fun _ =>
  neverFails_vmulS _ _

theorem neverFails_rk4Combine : NeverFails rk4Combine :=
  neverFails_bind (neverFails_vcopy _ _) fun _ =>
  neverFails_bind (neverFails_vaddScaled _ _ _) fun _ =>
  neverFails_bind (neverFails_vaddScaled _ _ _) fun _ =>
  neverFails_bind (neverFails_vaddRef _ _) fun _ =>
  neverFails_bind (neverFails_vmulS _ _) fun _ =>
  neverFails_bind (neverFails_vcopy _ _) fun _ =>
  neverFails_bind (neverFails_vaddScaled _ _ _) fun _ =>
  neverFails_bind (neverFails_vaddScaled _ _ _) fun _ =>
  neverFails_bind (neverFails_vaddRef _ _) fun _ =>
  neverFails_vmulS _ _

theorem neverFails_rk4Step (P : Phys) (M : JsMath) {F : FieldFns} (hF : F.Total)
    (i : ℕ) (dt t : ℚ) : NeverFails (rk4Step P M F i dt t) :=
  neverFails_bind (neverFails_rk4K1 P M hF i dt t) fun _ =>
  neverFails_bind (neverFails_rk4K2 P M hF i dt t) fun _ =>
  neverFails_bind (neverFails_rk4K3 P M hF i dt t) fun _ =>
  neverFails_bind (neverFails_rk4K4 P M hF i dt t) fun _ =>
  neverFails_bind neverFails_rk4Combine fun _ =>
  neverFails_pure _

end Physics

/-- C1: at a relativistic evaluation with the particle at rest in a pure
electric field `E = (1,0,0)` (with `q = m = c = 1`), `computeAcceleration`
returns the zero vector, while the spec formula
`(q/(γ·m))·(E + v×B − v·(v·E)/c²)` gives `(1,0,0)`: the scratch-vector
aliasing (`term_v_v_dot_E_over_cSq` is written into `temp.vec1`, the very
object holding `E`) cancels the electric-field term out of `fullForce`, so
`E` never contributes to the returned acceleration. -/
theorem C1_relativistic_accel_drops_E_term :
    Physics.accelValue PrelE mathSpec fieldsExOne 0 (.pr 0) (.pv 0) 0 sigmaRest
      = some Vec3.zero
    ∧ specRelativisticAccel PrelE mathSpec 1 Vec3.zero ⟨1, 0, 0⟩ Vec3.zero = ⟨1, 0, 0⟩
    ∧ (Vec3.zero : Vec3) ≠ ⟨1, 0, 0⟩ := by
  refine ⟨?_, ?_, ?_⟩
  · with_unfolding_all decide
  · with_unfolding_all decide
  · with_unfolding_all decide

/-- C3: one zero-field, zero-friction, no-Coulomb RK4 step with `v₀ = (1,0,0)`
and `dt = 1` produces `Δr = (1/6, 0, 0)`, not `v₀·dt = (1,0,0)`: the stage
velocities `v2..v4` live in `temp.vec1`, which the nested
`computeAcceleration` calls overwrite before `k2r..k4r` are read, so only the
`k1` term survives and `Δr = v₀·dt/6`. -/
theorem C3_zero_field_step_is_sixth_of_v_dt :
    Physics.rk4Delta Pdefault mathSpec zeroFields 0 1 0 sigma0
      = some (⟨1/6, 0, 0⟩, ⟨0, 0, 0⟩)
    ∧ (⟨1/6, 0, 0⟩ : Vec3) ≠ Vec3.smul 1 ⟨1, 0, 0⟩ := by
  have hK1 : Physics.rk4K1 Pdefault mathSpec zeroFields 0 1 0 sigma0 = .ok ((), c3A) := by
    with_unfolding_all decide
  have hK2 : Physics.rk4K2 Pdefault mathSpec zeroFields 0 1 0 c3A = .ok ((), c3A) := by
    with_unfolding_all decide
  have hK3 : Physics.rk4K3 Pdefault mathSpec zeroFields 0 1 0 c3A = .ok ((), c3A) := by
    with_unfolding_all decide
  have hK4 : Physics.rk4K4 Pdefault mathSpec zeroFields 0 1 0 c3A = .ok ((), c3A) := by
    with_unfolding_all decide
  have hC : Physics.rk4Combine c3A = .ok ((), c3E) := by
    with_unfolding_all decide
  have hs := Simulation.Physics.rk4Step_run hK1 hK2 hK3 hK4 hC
  constructor
  · unfold Physics.rk4Delta
    rw [hs]
    with_unfolding_all decide
  · with_unfolding_all decide

/-- C7 counterexample: an ordinary relativistic `rk4Step` call rewrites the
particle's `gamma` field (from `1` to `5/4` at `c = 5`, `v = (3,0,0)`), so
the integrator is not pure with respect to the full particle state named by
the claim. -/
theorem C7_rk4Step_mutates_gamma :
    ((JsM.resultStore (Physics.rk4Step Prel5 mathSpec zeroFields 0 (1/30) 0)
        storeV3).parts.getD 0 defaultP).gamma = 5/4
    ∧ (storeV3.parts.getD 0 defaultP).gamma = 1
    ∧ (5/4 : ℚ) ≠ 1 := by
  have hK1 : Physics.rk4K1 Prel5 mathSpec zeroFields 0 (1/30) 0 storeV3 = .ok ((), c7A) := by
    with_unfolding_all decide
  have hK2 : Physics.rk4K2 Prel5 mathSpec zeroFields 0 (1/30) 0 c7A = .ok ((), c7A) := by
    with_unfolding_all decide
  have hK3 : Physics.rk4K3 Prel5 mathSpec zeroFields 0 (1/30) 0 c7A = .ok ((), c7A) := by
    with_unfolding_all decide
  have hK4 : Physics.rk4K4 Prel5 mathSpec zeroFields 0 (1/30) 0 c7A = .ok ((), c7A) := by
    with_unfolding_all decide
  have hC : Physics.rk4Combine c7A = .ok ((), c7E) := by
    with_unfolding_all decide
  have hs := Simulation.Physics.rk4Step_run hK1 hK2 hK3 hK4 hC
  refine ⟨?_, rfl, by norm_num⟩
  rw [JsM.resultStore_ok hs]
  with_unfolding_all decide

/-- C9 counterexample: the `physics.js` `rk4Step` (and the
`computeAcceleration` calls it makes) completes without raising any error at
zero rest mass — the division `1.0 / m` is performed silently (JavaScript
yields `Infinity`/`NaN`; the rational model yields the junk value `0`). -/
theorem C9_physics_rk4_no_error_on_zero_mass :
    (Physics.rk4Step Pzero mathSpec zeroFields 0 1 0 sigma0).isOk = true := by
  obtain ⟨a, σ', h⟩ :=
    Physics.neverFails_rk4Step Pzero mathSpec zeroFields_total 0 1 0 sigma0
  rw [h]
  rfl

/-- C2: with two particles of different velocities (zero fields, so each
particle's delta is just its own `v·dt/6`), running the per-particle
`rk4Step` passes in order `[0, 1]` commits particle 0 at `(2,0,0)` while
order `[1, 0]` commits it at `(1,0,0)`: the `{dr, dv}` objects stored in
`stagedUpdates` are the shared scratch vectors `temp.r`/`temp.v`, so at
commit time every particle reads the delta of whichever particle was
processed last, and iteration order changes the committed state. -/
theorem C2_iteration_order_changes_committed_state :
    (Simulation.frameResult Pdefault mathSpec zeroFields 1 0 [0, 1] sigma2).map
        (fun σ => (σ.parts.getD 0 defaultP).r) = some ⟨2, 0, 0⟩
    ∧ (Simulation.frameResult Pdefault mathSpec zeroFields 1 0 [1, 0] sigma2).map
        (fun σ => (σ.parts.getD 0 defaultP).r) = some ⟨1, 0, 0⟩ := by
  have h0K1 : Physics.rk4K1 Pdefault mathSpec zeroFields 0 1 0 sigma2 = .ok ((), a0A) := by
    with_unfolding_all decide
  have hK2i0 : Physics.rk4K2 Pdefault mathSpec zeroFields 0 1 0 a0A
      = .ok ((), a0A) := by
    have q20x1 : JsM.vcopy .vec1 (.pv 0) a0A
        = .ok (.reg .vec1, g20m1) := by
      with_unfolding_all decide
    have q20x2 : JsM.vaddScaled .vec1 (.reg .k1v) (1/2) g20m1
        = .ok ((), g20m1) := by
      with_unfolding_all decide
    have q20x3 : JsM.vcopy .vec2 (.pr 0) g20m1
        = .ok (.reg .vec2, g20m1) := by
      with_unfolding_all decide
    have q20x4 : JsM.vaddScaled .vec2 (.reg .k1r) (1/2) g20m1
        = .ok ((), g20m4) := by
      with_unfolding_all decide
    have q20x5 : Physics.computeAcceleration Pdefault mathSpec zeroFields 0 (.reg .vec2) (.reg .vec1) (0 + 1 / 2) g20m4
        = .ok (.reg .force, a0A) := by
      with_unfolding_all decide
    have q20x6 : JsM.vcopy .k2v (.reg .force) a0A
        = .ok (.reg .k2v, a0A) := by
      with_unfolding_all decide
    have q20x7 : JsM.vmulS .k2v 1 a0A
        = .ok ((), a0A) := by
      with_unfolding_all decide
    have q20x8 : JsM.vcopy .k2r (.reg .vec1) a0A
        = .ok (.reg .k2r, a0A) := by
      with_unfolding_all decide
    have q20x9 : JsM.vmulS .k2r 1 a0A
        = .ok ((), a0A) := by
      with_unfolding_all decide
    unfold Physics.rk4K2
    rw [JsM.bind_ok q20x1, JsM.bind_ok q20x2, JsM.bind_ok q20x3, JsM.bind_ok q20x4, JsM.bind_ok q20x5, JsM.bind_ok q20x6, JsM.bind_ok q20x7, JsM.bind_ok q20x8]
    exact q20x9
  have hK3i0 : Physics.rk4K3 Pdefault mathSpec zeroFields 0 1 0 a0A
      = .ok ((), a0A) := by
    have q30x1 : JsM.vcopy .vec1 (.pv 0) a0A
        = .ok (.reg .vec1, g20m1) := by
      with_unfolding_all decide
    have q30x2 : JsM.vaddScaled .vec1 (.reg .k2v) (1/2) g20m1
        = .ok ((), g20m1) := by
      with_unfolding_all decide
    have q30x3 : JsM.vcopy .vec2 (.pr 0) g20m1
        = .ok (.reg .vec2, g20m1) := by
      with_unfolding_all decide
    have q30x4 : JsM.vaddScaled .vec2 (.reg .k2r) (1/2) g20m1
        = .ok ((), g20m1) := by
      with_unfolding_all decide
    have q30x5 : Physics.computeAcceleration Pdefault mathSpec zeroFields 0 (.reg .vec2) (.reg .vec1) (0 + 1 / 2) g20m1
        = .ok (.reg .force, a0A) := by
      with_unfolding_all decide
    have q30x6 : JsM.vcopy .k3v (.reg .force) a0A
        = .ok (.reg .k3v, a0A) := by
      with_unfolding_all decide
    have q30x7 : JsM.vmulS .k3v 1 a0A
        = .ok ((), a0A) := by
      with_unfolding_all decide
    have q30x8 : JsM.vcopy .k3r (.reg .vec1) a0A
        = .ok (.reg .k3r, a0A) := by
      with_unfolding_all decide
    have q30x9 : JsM.vmulS .k3r 1 a0A
        = .ok ((), a0A) := by
      with_unfolding_all decide
    unfold Physics.rk4K3
    rw [JsM.bind_ok q30x1, JsM.bind_ok q30x2, JsM.bind_ok q30x3, JsM.bind_ok q30x4, JsM.bind_ok q30x5, JsM.bind_ok q30x6, JsM.bind_ok q30x7, JsM.bind_ok q30x8]
    exact q30x9
  have hK4i0 : Physics.rk4K4 Pdefault mathSpec zeroFields 0 1 0 a0A
      = .ok ((), a0A) := by
    have q40x1 : JsM.vcopy .vec1 (.pv 0) a0A
        = .ok (.reg .vec1, g20m1) := by
      with_unfolding_all decide
    have q40x2 : JsM.vaddRef .vec1 (.reg .k3v) g20m1
        = .ok ((), g20m1) := by
      with_unfolding_all decide
    have q40x3 : JsM.vcopy .vec2 (.pr 0) g20m1
        = .ok (.reg .vec2, g20m1) := by
      with_unfolding_all decide
    have q40x4 : JsM.vaddRef .vec2 (.reg .k3r) g20m1
        = .ok ((), g20m1) := by
      with_unfolding_all decide
    have q40x5 : Physics.computeAcceleration Pdefault mathSpec zeroFields 0 (.reg .vec2) (.reg .vec1) (0 + 1) g20m1
        = .ok (.reg .force, a0A) := by
      with_unfolding_all decide
    have q40x6 : JsM.vcopy .k4v (.reg .force) a0A
        = .ok (.reg .k4v, a0A) := by
      with_unfolding_all decide
    have q40x7 : JsM.vmulS .k4v 1 a0A
        = .ok ((), a0A) := by
      with_unfolding_all decide
    have q40x8 : JsM.vcopy .k4r (.reg .vec1) a0A
        = .ok (.reg .k4r, a0A) := by
      with_unfolding_all decide
    have q40x9 : JsM.vmulS .k4r 1 a0A
        = .ok ((), a0A) := by
      with_unfolding_all decide
    unfold Physics.rk4K4
    rw [JsM.bind_ok q40x1, JsM.bind_ok q40x2, JsM.bind_ok q40x3, JsM.bind_ok q40x4, JsM.bind_ok q40x5, JsM.bind_ok q40x6, JsM.bind_ok q40x7, JsM.bind_ok q40x8]
    exact q40x9
  have hK2i1 : Physics.rk4K2 Pdefault mathSpec zeroFields 1 1 0 a1A
      = .ok ((), a1A) := by
    have q21x1 : JsM.vcopy .vec1 (.pv 1) a1A
        = .ok (.reg .vec1, g21m1) := by
      with_unfolding_all decide
    have q21x2 : JsM.vaddScaled .vec1 (.reg .k1v) (1/2) g21m1
        = .ok ((), g21m1) := by
      with_unfolding_all decide
    have q21x3 : JsM.vcopy .vec2 (.pr 1) g21m1
        = .ok (.reg .vec2, g21m3) := by
      with_unfolding_all decide
    have q21x4 : JsM.vaddScaled .vec2 (.reg .k1r) (1/2) g21m3
        = .ok ((), g21m4) := by
      with_unfolding_all decide
    have q21x5 : Physics.computeAcceleration Pdefault mathSpec zeroFields 1 (.reg .vec2) (.reg .vec1) (0 + 1 / 2) g21m4
        = .ok (.reg .force, a1A) := by
      with_unfolding_all decide
    have q21x6 : JsM.vcopy .k2v (.reg .force) a1A
        = .ok (.reg .k2v, a1A) := by
      with_unfolding_all decide
    have q21x7 : JsM.vmulS .k2v 1 a1A
        = .ok ((), a1A) := by
      with_unfolding_all decide
    have q21x8 : JsM.vcopy .k2r (.reg .vec1) a1A
        = .ok (.reg .k2r, a1A) := by
      with_unfolding_all decide
    have q21x9 : JsM.vmulS .k2r 1 a1A
        = .ok ((), a1A) := by
      with_unfolding_all decide
    unfold Physics.rk4K2
    rw [JsM.bind_ok q21x1, JsM.bind_ok q21x2, JsM.bind_ok q21x3, JsM.bind_ok q21x4, JsM.bind_ok q21x5, JsM.bind_ok q21x6, JsM.bind_ok q21x7, JsM.bind_ok q21x8]
    exact q21x9
  have hK3i1 : Physics.rk4K3 Pdefault mathSpec zeroFields 1 1 0 a1A
      = .ok ((), a1A) := by
    have q31x1 : JsM.vcopy .vec1 (.pv 1) a1A
        = .ok (.reg .vec1, g21m1) := by
      with_unfolding_all decide
    have q31x2 : JsM.vaddScaled .vec1 (.reg .k2v) (1/2) g21m1
        = .ok ((), g21m1) := by
      with_unfolding_all decide
    have q31x3 : JsM.vcopy .vec2 (.pr 1) g21m1
        = .ok (.reg .vec2, g21m3) := by
      with_unfolding_all decide
    have q31x4 : JsM.vaddScaled .vec2 (.reg .k2r) (1/2) g21m3
        = .ok ((), g21m3) := by
      with_unfolding_all decide
    have q31x5 : Physics.computeAcceleration Pdefault mathSpec zeroFields 1 (.reg .vec2) (.reg .vec1) (0 + 1 / 2) g21m3
        = .ok (.reg .force, a1A) := by
      with_unfolding_all decide
    have q31x6 : JsM.vcopy .k3v (.reg .force) a1A
        = .ok (.reg .k3v, a1A) := by
      with_unfolding_all decide
    have q31x7 : JsM.vmulS .k3v 1 a1A
        = .ok ((), a1A) := by
      with_unfolding_all decide
    have q31x8 : JsM.vcopy .k3r (.reg .vec1) a1A
        = .ok (.reg .k3r, a1A) := by
      with_unfolding_all decide
    have q31x9 : JsM.vmulS .k3r 1 a1A
        = .ok ((), a1A) := by
      with_unfolding_all decide
    unfold Physics.rk4K3
    rw [JsM.bind_ok q31x1, JsM.bind_ok q31x2, JsM.bind_ok q31x3, JsM.bind_ok q31x4, JsM.bind_ok q31x5, JsM.bind_ok q31x6, JsM.bind_ok q31x7, JsM.bind_ok q31x8]
    exact q31x9
  have hK4i1 : Physics.rk4K4 Pdefault mathSpec zeroFields 1 1 0 a1A
      = .ok ((), a1A) := by
    have q41x1 : JsM.vcopy .vec1 (.pv 1) a1A
        = .ok (.reg .vec1, g21m1) := by
      with_unfolding_all decide
    have q41x2 : JsM.vaddRef .vec1 (.reg .k3v) g21m1
        = .ok ((), g21m1) := by
      with_unfolding_all decide
    have q41x3 : JsM.vcopy .vec2 (.pr 1) g21m1
        = .ok (.reg .vec2, g21m3) := by
      with_unfolding_all decide
    have q41x4 : JsM.vaddRef .vec2 (.reg .k3r) g21m3
        = .ok ((), g21m3) := by
      with_unfolding_all decide
    have q41x5 : Physics.computeAcceleration Pdefault mathSpec zeroFields 1 (.reg .vec2) (.reg .vec1) (0 + 1) g21m3
        = .ok (.reg .force, a1A) := by
      with_unfolding_all decide
    have q41x6 : JsM.vcopy .k4v (.reg .force) a1A
        = .ok (.reg .k4v, a1A) := by
      with_unfolding_all decide
    have q41x7 : JsM.vmulS .k4v 1 a1A
        = .ok ((), a1A) := by
      with_unfolding_all decide
    have q41x8 : JsM.vcopy .k4r (.reg .vec1) a1A
        = .ok (.reg .k4r, a1A) := by
      with_unfolding_all decide
    have q41x9 : JsM.vmulS .k4r 1 a1A
        = .ok ((), a1A) := by
      with_unfolding_all decide
    unfold Physics.rk4K4
    rw [JsM.bind_ok q41x1, JsM.bind_ok q41x2, JsM.bind_ok q41x3, JsM.bind_ok q41x4, JsM.bind_ok q41x5, JsM.bind_ok q41x6, JsM.bind_ok q41x7, JsM.bind_ok q41x8]
    exact q41x9
  have hCmbA : Physics.rk4Combine a0A = .ok ((), a0E) := by
    with_unfolding_all decide
  have h1K1 : Physics.rk4K1 Pdefault mathSpec zeroFields 1 1 0 a0E = .ok ((), a1A) := by
    with_unfolding_all decide
  have hCmbB : Physics.rk4Combine a1A = .ok ((), a1E) := by
    with_unfolding_all decide
  have hb1K1 : Physics.rk4K1 Pdefault mathSpec zeroFields 1 1 0 sigma2 = .ok ((), a1A) := by
    with_unfolding_all decide
  have hb0K1 : Physics.rk4K1 Pdefault mathSpec zeroFields 0 1 0 a1E = .ok ((), a0A) := by
    with_unfolding_all decide
  have hCommA : Simulation.commitAll
      [(0, (⟨.reg .r, .reg .v⟩ : Physics.DeltaRefs)),
       (1, (⟨.reg .r, .reg .v⟩ : Physics.DeltaRefs))]
      (List.range a1E.parts.length) a1E = .ok ((), commA) := by
    with_unfolding_all decide
  have hCommB : Simulation.commitAll
      [(1, (⟨.reg .r, .reg .v⟩ : Physics.DeltaRefs)),
       (0, (⟨.reg .r, .reg .v⟩ : Physics.DeltaRefs))]
      (List.range a0E.parts.length) a0E = .ok ((), commB) := by
    with_unfolding_all decide
  have hs0 := Simulation.Physics.rk4Step_run h0K1 hK2i0 hK3i0 hK4i0 hCmbA
  have hs1 := Simulation.Physics.rk4Step_run h1K1 hK2i1 hK3i1 hK4i1 hCmbB
  have hsb1 := Simulation.Physics.rk4Step_run hb1K1 hK2i1 hK3i1 hK4i1 hCmbB
  have hsb0 := Simulation.Physics.rk4Step_run hb0K1 hK2i0 hK3i0 hK4i0 hCmbA
  have hD01 := Simulation.computeDeltas_cons_run hs0
    (Simulation.computeDeltas_cons_run hs1
      (Simulation.computeDeltas_nil_run Pdefault mathSpec zeroFields 1 0 a1E))
  have hD10 := Simulation.computeDeltas_cons_run hsb1
    (Simulation.computeDeltas_cons_run hsb0
      (Simulation.computeDeltas_nil_run Pdefault mathSpec zeroFields 1 0 a0E))
  have hF01 := Simulation.stepFrameOrder_run hD01 hCommA
  have hF10 := Simulation.stepFrameOrder_run hD10 hCommB
  constructor
  · unfold Simulation.frameResult
    rw [hF01]
    with_unfolding_all decide
  · unfold Simulation.frameResult
    rw [hF10]
    with_unfolding_all decide

/-- C6 counterexample: with relativity off (the `config.js` default) and the
initial speed parameter exceeding `c` (both reachable through the GUI), a
committed `Simulation.update` step leaves `|velocity| = 2 ≥ c = 1`: nothing
in the step bounds the stored velocity — the `c² − ε` clamp only feeds the
`γ` computation. -/
theorem C6_speed_not_bounded_after_step :
    ((Simulation.update P6 mathSpec zeroFields 1 ⟨false, 0, 0, sigma6⟩).store.parts.getD
        0 defaultP).v = ⟨2, 0, 0⟩
    ∧ (Simulation.update P6 mathSpec zeroFields 1
        ⟨false, 0, 0, sigma6⟩).totalTimeSec = 1/30
    ∧ ¬ (Vec3.lengthSq ⟨2, 0, 0⟩ < P6.c * P6.c) := by
  have hK1 : Physics.rk4K1 P6 mathSpec zeroFields 0 (1/30) (1/30) sigma6 = .ok ((), c6A) := by
    with_unfolding_all decide
  have hK2 : Physics.rk4K2 P6 mathSpec zeroFields 0 (1/30) (1/30) c6A = .ok ((), c6A) := by
    with_unfolding_all decide
  have hK3 : Physics.rk4K3 P6 mathSpec zeroFields 0 (1/30) (1/30) c6A = .ok ((), c6A) := by
    with_unfolding_all decide
  have hK4 : Physics.rk4K4 P6 mathSpec zeroFields 0 (1/30) (1/30) c6A = .ok ((), c6A) := by
    with_unfolding_all decide
  have hC : Physics.rk4Combine c6A = .ok ((), c6E) := by
    with_unfolding_all decide
  have hComm : Simulation.commitAll [(0, (⟨.reg .r, .reg .v⟩ : Physics.DeltaRefs))]
      (List.range c6E.parts.length) c6E = .ok ((), c6F) := by
    with_unfolding_all decide
  have hs := Simulation.Physics.rk4Step_run hK1 hK2 hK3 hK4 hC
  have hD := Simulation.computeDeltas_cons_run hs
    (Simulation.computeDeltas_nil_run P6 mathSpec zeroFields (1/30) (1/30) c6E)
  have hFo := Simulation.stepFrameOrder_run hD hComm
  have hrange : List.range sigma6.parts.length = [0] := by with_unfolding_all decide
  rw [← hrange] at hFo
  have hFr := Simulation.stepFrame_run hFo
  have harith : min ((1 - (0 : ℚ)) * P6.animationSpeed) MAX_DT = 1/30 := by
    norm_num [P6, MAX_DT]
  have hc : Simulation.stepFrame P6 mathSpec zeroFields
      (min ((1 - (0 : ℚ)) * P6.animationSpeed) MAX_DT)
      ((0 : ℚ) + min ((1 - (0 : ℚ)) * P6.animationSpeed) MAX_DT) sigma6
      = .ok ((), c6F) := by
    rw [harith]
    rw [show (0 : ℚ) + 1/30 = 1/30 by norm_num]
    exact hFr
  have hup := Simulation.update_run_ok ⟨false, 0, 0, sigma6⟩ rfl
    (by norm_num) hc
  rw [hup]
  refine ⟨rfl, ?_, by with_unfolding_all decide⟩
  show (0 : ℚ) + min ((1 - (0 : ℚ)) * P6.animationSpeed) MAX_DT = 1/30
  rw [harith]
  norm_num

/-- C4 witness: a concrete frame in which `Ex` throws on its first
evaluation: the simulation pauses, positions/velocities/charges survive, but
the clock has advanced to `1/30` and the particle's `gamma` was rewritten to
`5/4` before the throw. -/
theorem C4_exception_pauses_and_preserves_r_v_q_witness :
    Simulation.update Prel5 mathSpec throwingFields 1 ⟨false, 0, 0, storeV3⟩
      = ⟨true, 1/30, 1, storeV3g⟩
    ∧ storeV3g.rvq = storeV3.rvq := by
  have hK1e : Physics.rk4K1 Prel5 mathSpec throwingFields 0 (1/30) (1/30) storeV3
      = .error (⟨"boom"⟩, storeV3g) := by
    with_unfolding_all decide
  have hrk := Simulation.Physics.rk4Step_error_k1 hK1e
  have hD := Simulation.computeDeltas_cons_error [] hrk
  have hFo := Simulation.stepFrameOrder_error_run hD
  have hrange : List.range storeV3.parts.length = [0] := by with_unfolding_all decide
  rw [← hrange] at hFo
  have hFr := Simulation.stepFrame_run hFo
  have harith : min ((1 - (0 : ℚ)) * Prel5.animationSpeed) MAX_DT = 1/30 := by
    norm_num [Prel5, MAX_DT]
  have hc : Simulation.stepFrame Prel5 mathSpec throwingFields
      (min ((1 - (0 : ℚ)) * Prel5.animationSpeed) MAX_DT)
      ((0 : ℚ) + min ((1 - (0 : ℚ)) * Prel5.animationSpeed) MAX_DT) storeV3
      = .error (⟨"boom"⟩, storeV3g) := by
    rw [harith]
    rw [show (0 : ℚ) + 1/30 = 1/30 by norm_num]
    exact hFr
  obtain ⟨h1, h2⟩ := C4_exception_pauses_and_preserves_r_v_q Prel5 mathSpec
    throwingFields 1 ⟨false, 0, 0, storeV3⟩ ⟨"boom"⟩ storeV3g rfl (by norm_num) hc
  refine ⟨?_, h2⟩
  rw [h1]
  rw [show (0 : ℚ) + min ((1 - (0 : ℚ)) * Prel5.animationSpeed) MAX_DT = 1/30 by
    rw [harith]; norm_num]

theorem Vec3.lengthSq_sub_comm (a b : Vec3) : (a.sub b).lengthSq = (b.sub a).lengthSq := by
  unfold Vec3.sub Vec3.lengthSq
  ring

/-- C8: for a two-particle system at distinct positions, the Coulomb force
`computeCoulombForce` yields on particle 0 is exactly the negation of the one
it yields on particle 1, for any charges and any `JsMath` used for
`Math.pow(d², -1.5)` — the squared distance fed to the softening floor and
the power is the same in both directions. -/
theorem C8_coulomb_forces_equal_and_opposite (M : JsMath) (P : Phys) (tp : Temp)
    (p0 p1 : PState) (h : p0.r ≠ p1.r) :
    Physics.coulombValue P M 0 ⟨tp, [p0, p1]⟩
      = Vec3.neg (Physics.coulombValue P M 1 ⟨tp, [p0, p1]⟩) := by
  unfold Physics.coulombValue Physics.computeCoulombForce
  norm_num [Physics.coulombLoop, JsM.bindImpl, JsM.pureImpl, JsM.readRef,
    JsM.writeTemp, JsM.getParticle, JsM.getCount, Bind.bind, Pure.pure, Monad.toBind,
    Store.read, Store.writeTemp, Temp.get, Temp.set, List.getD, List.length,
    List.range, List.range.loop, List.getElem?_cons_zero, List.getElem?_cons_succ,
    Vec3.zero, defaultP]
  rw [Vec3.lengthSq_sub_comm p1.r p0.r]
  unfold Vec3.add Vec3.smul Vec3.neg Vec3.sub
  simp only [Vec3.mk.injEq]
  refine ⟨?_, ?_, ?_⟩ <;> ring

/-- C8 witness: two opposite charges two units apart attract each other with
forces `(15/2, 0, 0)` and `(-15/2, 0, 0)`. -/
theorem C8_coulomb_forces_equal_and_opposite_witness :
    Physics.coulombValue ⟨false, 20, 1, 0, 2, 3/2⟩ mathSpec 0
        ⟨Temp.init, [⟨⟨0, 0, 0⟩, ⟨0, 0, 0⟩, 3, 1⟩, ⟨⟨2, 0, 0⟩, ⟨0, 0, 0⟩, -5, 1⟩]⟩
      = Vec3.neg (Physics.coulombValue ⟨false, 20, 1, 0, 2, 3/2⟩ mathSpec 1
        ⟨Temp.init, [⟨⟨0, 0, 0⟩, ⟨0, 0, 0⟩, 3, 1⟩, ⟨⟨2, 0, 0⟩, ⟨0, 0, 0⟩, -5, 1⟩]⟩) :=
  C8_coulomb_forces_equal_and_opposite mathSpec ⟨false, 20, 1, 0, 2, 3/2⟩ Temp.init
    ⟨⟨0, 0, 0⟩, ⟨0, 0, 0⟩, 3, 1⟩ ⟨⟨2, 0, 0⟩, ⟨0, 0, 0⟩, -5, 1⟩ (by decide)

/-- C4 counterexample: when a field function throws during delta computation,
the simulation pauses — but the particle's `gamma` (rewritten to `5/4` before
the throw) and the clock (already advanced to `1/30`) are NOT left at their
last-committed values (`1` and `0`). -/
theorem C4_exception_leaks_gamma_and_clock :
    (Simulation.update Prel5 mathSpec throwingFields 1 ⟨false, 0, 0, storeV3⟩).isPaused
      = true
    ∧ ((Simulation.update Prel5 mathSpec throwingFields 1
        ⟨false, 0, 0, storeV3⟩).store.parts.getD 0 defaultP).gamma = 5/4
    ∧ (storeV3.parts.getD 0 defaultP).gamma = 1
    ∧ (5/4 : ℚ) ≠ 1
    ∧ (Simulation.update Prel5 mathSpec throwingFields 1
        ⟨false, 0, 0, storeV3⟩).totalTimeSec = 1/30
    ∧ (1/30 : ℚ) ≠ 0 := by
  have hK1e : Physics.rk4K1 Prel5 mathSpec throwingFields 0 (1/30) (1/30) storeV3
      = .error (⟨"boom"⟩, storeV3g) := by
    with_unfolding_all decide
  have hrk := Simulation.Physics.rk4Step_error_k1 hK1e
  have hD := Simulation.computeDeltas_cons_error [] hrk
  have hFo := Simulation.stepFrameOrder_error_run hD
  have hrange : List.range storeV3.parts.length = [0] := by with_unfolding_all decide
  rw [← hrange] at hFo
  have hFr := Simulation.stepFrame_run hFo
  have harith : min ((1 - (0 : ℚ)) * Prel5.animationSpeed) MAX_DT = 1/30 := by
    norm_num [Prel5, MAX_DT]
  have hc : Simulation.stepFrame Prel5 mathSpec throwingFields
      (min ((1 - (0 : ℚ)) * Prel5.animationSpeed) MAX_DT)
      ((0 : ℚ) + min ((1 - (0 : ℚ)) * Prel5.animationSpeed) MAX_DT) storeV3
      = .error (⟨"boom"⟩, storeV3g) := by
    rw [harith]
    rw [show (0 : ℚ) + 1/30 = 1/30 by norm_num]
    exact hFr
  have hup := Simulation.update_run_error ⟨false, 0, 0, storeV3⟩ rfl
    (by norm_num) hc
  rw [hup]
  refine ⟨rfl, by with_unfolding_all decide, rfl, by norm_num, ?_, by norm_num⟩
  show (0 : ℚ) + min ((1 - (0 : ℚ)) * Prel5.animationSpeed) MAX_DT = 1/30
  rw [harith]
  norm_num
